import Mathlib

/-!
# The OCCA device facade (`src/src/device.cpp`)

A shallow embedding of `occa::device_v`, `occa::device` and `occa::stream` as
defined in `device.cpp`.

* Heap objects reached through pointers (`device_v*`, `memory_v*`) live in an
  explicit `State`; a `NULL` `dHandle` is `none`.
* Every call that leaves `device.cpp` (a virtual method of the backend, the
  translator, the file and hash helpers of `io::`) appends an `Event` to
  `State.trace` and takes its return value from the collaborator record `Env`.
* `OCCA_CHECK` failures are `Failure.error msg`; dereferencing a `NULL`
  `dHandle` is `Failure.nullDereference`.
* The methods are given twice: first for the runs in which every collaborator
  call returns, then (suffix `Under`) with a `Faults` argument that says which
  collaborator calls throw. The two agree when nothing throws
  (`stepUnder_none`).
-/

namespace occa

/-! ## Plain data -/

/-- A `void*`; `NULL` is `0`. -/
abbrev Ptr := Nat

/-- The null pointer. -/
def NULL : Ptr := 0

/-- Type `stream_t` is a `void*`. -/
abbrev stream_t := Ptr

/-- A `memory_v*`: the index of a memory object in `State.memories`. -/
abbrev MemRef := Nat

/-- An `occa::hash_t`, kept abstract. -/
abbrev hash_t := Nat

/-- An `occa::streamTag`, only ever handed through to the backend. -/
abbrev streamTag := Nat

/-- The `double` returned by `timeBetween`, only ever handed through. -/
abbrev TimeValue := Int

/-- Modelled from the spec: `occa::properties` is not declared in `device.cpp`;
it is a key/value configuration, here string keys mapped to string values. -/
abbrev Props := List (String × String)

/-- Lookup `props[key]`; `none` when the key is absent. Comparing the result
with a string literal is exact string equality. -/
def Props.lookup (props : Props) (key : String) : Option String :=
  (props.find? (fun kv => kv.1 == key)).map Prod.snd

/-- Lookup `props.get(key, default)`. -/
def Props.getD (props : Props) (key : String) (dflt : String) : String :=
  (props.lookup key).getD dflt

/-- A `device_v*` stored inside another object: `NULL`, the backend instance
this facade points to, or a separate instance made by `newModeDevice(props)`. -/
inductive DeviceRef where
  | null
  | facade
  | fresh (props : Props)
deriving DecidableEq, Repr

/-- The value type `occa::stream`: owning device and native handle. -/
structure stream where
  dHandle : DeviceRef
  handle : stream_t
deriving DecidableEq, Repr

/-- The base-class fields of `occa::device_v` that `device.cpp` reads and
writes. `bytesAllocated` is a `udim_t`. -/
structure device_v where
  mode : String
  properties : Props
  uvaEnabled_ : Bool
  uvaMap : List (Ptr × MemRef)
  currentStream : stream_t
  streams : List stream_t
  bytesAllocated : Nat
deriving DecidableEq, Repr

/-- The fields of `occa::memory_v` used by `device.cpp`. -/
structure memory_v where
  dHandle : DeviceRef
  handle : Ptr
  uvaPtr : Ptr
  size : Nat
  memInfo : Int
deriving DecidableEq, Repr

/-- The build metadata of a kernel (`k->metadata`). -/
structure kernelMetadata where
  name : String
  baseName : String
  nestedKernels : Int
  argumentInfos : List String
deriving DecidableEq, Repr

/-- Modelled from the spec: `kernelMetadata::removeArg` is not part of
`device.cpp`; it strips the argument descriptor at the given position. -/
def kernelMetadata.removeArg (m : kernelMetadata) (i : Nat) : kernelMetadata :=
  { m with argumentInfos := m.argumentInfos.eraseIdx i }

/-- A backend kernel object (`kernel_v`). `native` stands for the compiled
artifact the backend produced; `nestedKernels` are the handles held by the
`occa::kernel` values of `k->nestedKernels`. -/
structure kernel_v where
  native : Nat
  dHandle : DeviceRef
  metadata : kernelMetadata
  nestedKernels : List kernel_v

/-- The value type `occa::kernel`, a handle on a `kernel_v`. -/
structure kernel where
  kHandle : kernel_v

/-- The value type `occa::memory`, a handle on a `memory_v`. -/
structure memory where
  mHandle : MemRef
deriving DecidableEq, Repr

/-- Completion state of one cache key under one usage tag. A claimed key is
owned either by a call of this facade (`byCaller = true`) or by another
builder. -/
inductive HashStatus where
  | unclaimed
  | claimed (byCaller : Bool)
  | complete
deriving DecidableEq, Repr

/-- Every call that leaves `device.cpp`, with its arguments. -/
inductive Event where
  | newModeDevice (props : Props)
  | newModeKernel (props : Props)
  | getHandle (props : Props)
  | memorySize
  | flush
  | fakesUva
  | finish
  | createStream
  | freeStream (handle : stream_t)
  | wrapStream (handle : Ptr)
  | tagStream
  | waitFor (tag : streamTag)
  | timeBetween (startTag endTag : streamTag)
  | buildKernel (file functionName : String) (props : Props)
  | buildKernelFromBinary (file functionName : String)
  | malloc (bytes : Int) (src : Ptr) (props : Props)
  | wrapMemory (handle : Ptr) (bytes : Int) (props : Props)
  | free
  | memCopyTo (mem : MemRef) (dest : Ptr) (bytes : Int) (offset : Int) (props : Props)
  | memCopyFrom (mem : MemRef) (src : Ptr) (bytes : Int) (offset : Int) (props : Props)
  | memManage (mem : MemRef)
  | kernelBuild (file functionName : String) (props : Props)
  | parseFileForFunction (mode file parsedFile functionName : String) (props : Props)
  | write (file content : String)
  | haveHash (hash : hash_t) (tag : String)
  | waitForHash (hash : hash_t) (tag : String)
  | releaseHash (hash : hash_t) (tag : String)
deriving DecidableEq, Repr

/-- The collaborators of `device.cpp`, none of which is defined in it: the
virtual methods of the backend the facade points to, the Serial kernel used
for the pre-pass, the `io::` helpers, hashing, the operators of
`occa::properties`, the `uvaFlag` bit masks and the width of `udim_t`.
Methods that hand out handles see the calls made so far. A call to a
collaborator changes nothing that `device.cpp` reads: its effect on the
embedding is the value it returns (for `k->build(...)`, the compiled artifact
stored in the kernel object). `ownerReleases hash tag` says whether another
builder that owns the cache key goes on to call `releaseHash` on it. -/
structure Env where
  getHandle : List Event → Props → Ptr
  memorySize : List Event → Nat
  fakesUva : Bool
  createStream : List Event → stream_t
  wrapStream : List Event → Ptr → stream_t
  tagStream : List Event → streamTag
  timeBetween : List Event → streamTag → streamTag → TimeValue
  buildKernel : String → String → Props → kernel_v
  buildKernelFromBinary : String → String → kernel_v
  malloc : List Event → Int → Ptr → Props → memory_v
  wrapMemory : List Event → Ptr → Int → Props → memory_v
  manageUvaPtr : List Event → memory_v → Ptr
  isManaged : Int
  inDevice : Int
  isDirty : Int
  newModeKernel : Props → kernel_v
  kernelBuild : String → String → Props → Nat
  filename : String → String
  fileNeedsParser : String → Bool
  hashFile : String → hash_t
  hashString : String → hash_t
  hashXor : hash_t → hash_t → hash_t
  hashDirOfFile : String → hash_t → String
  hashDir : hash_t → String
  binaryFile : String
  parseFileForFunction : String → String → String → String → Props → kernelMetadata
  propsAdd : Props → Props → Props
  propsHash : Props → hash_t
  addDefine : Props → String → Int → Props
  udimBits : Nat
  ownerReleases : hash_t → String → Bool

/-- What a call can end in besides a value: an `OCCA_CHECK` that failed with
its message, a dereference of a `NULL` `dHandle`, an exception thrown by a
collaborator call and passed on to the caller, or a wait that never ends. -/
inductive Failure where
  | error (msg : String)
  | nullDereference
  | thrown (call : Event)
  | neverReturns
deriving DecidableEq, Repr

/-- The facade's `dHandle`, the objects it reaches, the globals
`occa::uvaDirtyMemory` and `settings["verboseCompilation"]`, the state of the
build cache, and the calls made so far. -/
structure State where
  dHandle : Option device_v
  memories : MemRef → memory_v
  memoryCount : Nat
  uvaDirtyMemory : List MemRef
  verboseCompilation : Option Bool
  hashes : hash_t → String → HashStatus
  trace : List Event

/-- A computation over `State` that ends in a value or a `Failure`; the state
reached is kept in both cases. -/
def M (α : Type) : Type := State → Except Failure α × State

instance : Monad M where
  pure a := fun s => (Except.ok a, s)
  bind m f := fun s =>
    match m s with
    | (Except.ok a, s1) => f a s1
    | (Except.error e, s1) => (Except.error e, s1)

/-- Modelled from the spec: the macro `OCCA_CHECK(cond, msg)` is not defined in
`device.cpp`; a check whose condition is false ends the call at once with an
error carrying `msg`. -/
def OCCA_CHECK (cond : Bool) (msg : String) : M Unit := fun s =>
  if cond then (Except.ok (), s) else (Except.error (Failure.error msg), s)

/-- Read the whole state. -/
def getState : M State := fun s => (Except.ok s, s)

/-- Record a call to a collaborator and take its return value. -/
def call {α : Type} (e : Event) (ret : List Event → α) : M α := fun s =>
  (Except.ok (ret s.trace), { s with trace := s.trace ++ [e] })

/-- Read `*dHandle`. -/
def deref : M device_v := fun s =>
  match s.dHandle with
  | some d => (Except.ok d, s)
  | none => (Except.error Failure.nullDereference, s)

/-- A virtual call `dHandle->method(...)`. -/
def dcall {α : Type} (e : Event) (ret : List Event → α) : M α := fun s =>
  match s.dHandle with
  | some _ => call e ret s
  | none => (Except.error Failure.nullDereference, s)

/-- An assignment to fields of `*dHandle`. -/
def modifyDevice (f : device_v → device_v) : M Unit := fun s =>
  match s.dHandle with
  | some d => (Except.ok (), { s with dHandle := some (f d) })
  | none => (Except.error Failure.nullDereference, s)

/-- An assignment to fields of the memory object `*mem`. -/
def modifyMemory (mem : MemRef) (f : memory_v → memory_v) : M Unit := fun s =>
  (Except.ok (), { s with memories := Function.update s.memories mem (f (s.memories mem)) })

/-- Place a new memory object on the heap and return the pointer to it. -/
def newMemory (m : memory_v) : M MemRef := fun s =>
  (Except.ok s.memoryCount,
    { s with memories := Function.update s.memories s.memoryCount m,
             memoryCount := s.memoryCount + 1 })

/-! ## `device_v` -/

/-- Constructor `device_v::device_v(properties_)`. -/
def device_v.new (properties_ : Props) : device_v :=
  { mode := (properties_.lookup "mode").getD ""
    properties := properties_
    uvaEnabled_ := properties_.lookup "uva" == some "enabled"
    uvaMap := []
    currentStream := NULL
    streams := []
    bytesAllocated := 0 }

/-- Method `device_v::hasUvaEnabled`. -/
def device_v.hasUvaEnabled (d : device_v) : Bool := d.uvaEnabled_

/-! ## `device` -/

/-- Method `device::checkIfInitialized`. -/
def checkIfInitialized : M Unit := fun s =>
  OCCA_CHECK s.dHandle.isSome "Device is not initialized" s

/-- Method `device::getHandle`. -/
def getHandle (env : Env) (props : Props) : M Ptr :=
  dcall (Event.getHandle props) (fun h => env.getHandle h props)

/-- Method `device::getDHandle`. -/
def getDHandle : M (Option device_v) := fun s => (Except.ok s.dHandle, s)

/-- Method `device::properties`. -/
def properties : M Props := do
  checkIfInitialized
  let d ← deref
  pure d.properties

/-- Method `device::memorySize`. -/
def memorySize (env : Env) : M Nat := do
  checkIfInitialized
  dcall Event.memorySize env.memorySize

/-- Method `device::memoryAllocated`. -/
def memoryAllocated : M Nat := do
  checkIfInitialized
  let d ← deref
  pure d.bytesAllocated

/-- Method `device::hasUvaEnabled`. -/
def hasUvaEnabled : M Bool := do
  checkIfInitialized
  let d ← deref
  pure d.hasUvaEnabled

/-- Method `device::mode`. -/
def mode : M String := do
  checkIfInitialized
  let d ← deref
  pure d.mode

/-- Method `device::flush`. -/
def flush : M Unit := do
  checkIfInitialized
  dcall Event.flush (fun _ => ())

/-- The loop body of `device::finish`, run for the entries of the dirty list
in index order (the list is not touched inside the loop). -/
def finishLoop (env : Env) : List MemRef → M Unit
  | [] => pure ()
  | mem :: rest => do
    let s ← getState
    call (Event.memCopyTo mem (s.memories mem).uvaPtr (-1) 0 [("async", "1")]) (fun _ => ())
    modifyMemory mem (fun m => { m with memInfo := Int.land m.memInfo (Int.lnot env.inDevice) })
    modifyMemory mem (fun m => { m with memInfo := Int.land m.memInfo (Int.lnot env.isDirty) })
    finishLoop env rest

/-- Statement `uvaDirtyMemory.clear()`. -/
def clearDirtyMemory : M Unit := fun s =>
  (Except.ok (), { s with uvaDirtyMemory := [] })

/-- Method `device::finish`. -/
def finish (env : Env) : M Unit := do
  checkIfInitialized
  if (← dcall Event.fakesUva (fun _ => env.fakesUva)) then
    let s ← getState
    let dirtyEntries := s.uvaDirtyMemory.length
    if dirtyEntries ≠ 0 then
      finishLoop env s.uvaDirtyMemory
      clearDirtyMemory
  dcall Event.finish (fun _ => ())

/-! ### Streams -/

/-- Method `device::createStream`. -/
def createStream (env : Env) : M stream := do
  checkIfInitialized
  let handle ← dcall Event.createStream env.createStream
  let newStream : stream := { dHandle := DeviceRef.facade, handle := handle }
  modifyDevice (fun d => { d with streams := d.streams ++ [newStream.handle] })
  pure newStream

/-- Method `device::freeStream`: the first position `i` of the owned list
with `streams[i] == s.handle`, when there is one, is released and erased. -/
def freeStream (s : stream) : M Unit := do
  checkIfInitialized
  let d ← deref
  match d.streams.indexOf? s.handle with
  | none => pure ()
  | some i => do
    if d.currentStream == s.handle then
      modifyDevice (fun d => { d with currentStream := NULL })
    dcall (Event.freeStream (d.streams.getD i NULL)) (fun _ => ())
    modifyDevice (fun d => { d with streams := d.streams.eraseIdx i })

/-- Method `device::getStream`. -/
def getStream : M stream := do
  checkIfInitialized
  let d ← deref
  pure { dHandle := DeviceRef.facade, handle := d.currentStream }

/-- Method `device::setStream`. -/
def setStream (s : stream) : M Unit := do
  checkIfInitialized
  modifyDevice (fun d => { d with currentStream := s.handle })

/-- Method `device::wrapStream`. -/
def wrapStream (env : Env) (handle_ : Ptr) : M stream := do
  checkIfInitialized
  let handle ← dcall (Event.wrapStream handle_) (fun h => env.wrapStream h handle_)
  pure { dHandle := DeviceRef.facade, handle := handle }

/-- Method `device::tagStream`. -/
def tagStream (env : Env) : M streamTag := do
  checkIfInitialized
  dcall Event.tagStream env.tagStream

/-- Method `device::waitFor`. -/
def waitFor (tag : streamTag) : M Unit := do
  checkIfInitialized
  dcall (Event.waitFor tag) (fun _ => ())

/-- Method `device::timeBetween`. -/
def timeBetween (env : Env) (startTag endTag : streamTag) : M TimeValue := do
  checkIfInitialized
  dcall (Event.timeBetween startTag endTag) (fun h => env.timeBetween h startTag endTag)

/-- Modelled from the spec: `occa::newModeDevice` is not defined in
`device.cpp`; it constructs the backend instance for the mode named in the
properties, which runs the `device_v` constructor above on them. -/
def newModeDevice (props : Props) : M device_v :=
  call (Event.newModeDevice props) (fun _ => device_v.new props)

/-- An assignment to the facade's `dHandle`. -/
def setDHandle (d : Option device_v) : M Unit := fun s =>
  (Except.ok (), { s with dHandle := d })

/-- Method `device::setup`. -/
def setup (env : Env) (props : Props) : M Unit := do
  let d ← newModeDevice props
  setDHandle (some d)
  modifyDevice (fun d => { d with uvaEnabled_ := props.lookup "uva" == some "ENABLED" })
  let newStream ← createStream env
  modifyDevice (fun d => { d with currentStream := newStream.handle })

/-! ### Memory -/

/-- Method `device::malloc`. The counter `bytesAllocated` is a `udim_t`, so
the sum is taken modulo `2 ^ udimBits`. -/
def malloc (env : Env) (bytes : Int) (src : Ptr) (props : Props) : M memory := do
  checkIfInitialized
  OCCA_CHECK (decide (bytes ≥ 0)) ("Trying to allocate negative bytes (" ++ toString bytes ++ ")")
  let m ← dcall (Event.malloc bytes src props) (fun h => env.malloc h bytes src props)
  let mHandle ← newMemory m
  modifyMemory mHandle (fun m => { m with dHandle := DeviceRef.facade })
  modifyDevice (fun d =>
    { d with bytesAllocated := (d.bytesAllocated + bytes.toNat) % 2 ^ env.udimBits })
  pure { mHandle := mHandle }

/-- Modelled from the spec: `memory::manage` is not part of `device.cpp`; it
marks the allocation as UVA-managed, giving it a host-visible shadow pointer
that is registered in the device's UVA map. -/
def manage (env : Env) (mem : memory) : M Unit := do
  let s ← getState
  let p ← call (Event.memManage mem.mHandle)
    (fun h => env.manageUvaPtr h (s.memories mem.mHandle))
  modifyMemory mem.mHandle
    (fun m => { m with uvaPtr := p, memInfo := Int.lor m.memInfo env.isManaged })
  modifyDevice (fun d => { d with uvaMap := d.uvaMap ++ [(p, mem.mHandle)] })

/-- Method `device::managedAlloc`. -/
def managedAlloc (env : Env) (bytes : Int) (src : Ptr) (props : Props) : M Ptr := do
  checkIfInitialized
  OCCA_CHECK (decide (bytes ≥ 0)) ("Trying to allocate negative bytes (" ++ toString bytes ++ ")")
  let mem ← malloc env bytes src props
  manage env mem
  let s ← getState
  pure (s.memories mem.mHandle).uvaPtr

/-- Method `device::wrapMemory`. -/
def wrapMemory (env : Env) (handle_ : Ptr) (bytes : Int) (props : Props) : M memory := do
  checkIfInitialized
  OCCA_CHECK (decide (bytes ≥ 0))
    ("Trying to wrap memory with negative bytes (" ++ toString bytes ++ ")")
  let m ← dcall (Event.wrapMemory handle_ bytes props) (fun h => env.wrapMemory h handle_ bytes props)
  let mHandle ← newMemory m
  modifyMemory mHandle (fun m => { m with dHandle := DeviceRef.facade })
  modifyDevice (fun d =>
    { d with bytesAllocated := (d.bytesAllocated + bytes.toNat) % 2 ^ env.udimBits })
  pure { mHandle := mHandle }

/-- The loop of `device::free` over the owned streams. -/
def freeLoop : List stream_t → M Unit
  | [] => pure ()
  | h :: rest => do
    dcall (Event.freeStream h) (fun _ => ())
    freeLoop rest

/-- Method `device::free`. -/
def free : M Unit := do
  checkIfInitialized
  let d ← deref
  freeLoop d.streams
  dcall Event.free (fun _ => ())
  setDHandle none

/-! ### Kernels -/

/-- Call `settings.get("verboseCompilation", true)`. -/
def getVerboseCompilation : M Bool := fun s =>
  (Except.ok (s.verboseCompilation.getD true), s)

/-- Call `settings.set<bool>("verboseCompilation", value)`. -/
def setVerboseCompilation (value : Bool) : M Unit := fun s =>
  (Except.ok (), { s with verboseCompilation := some value })

/-- The properties written `occa::properties("mode = Serial")`. -/
def serialProps : Props := [("mode", "Serial")]

/-- The sub-kernel built for index `ki` by the loop of `device::buildKernel`:
the target backend's `buildKernel` result for the name `baseName` followed
by `ki`, with its metadata replaced by the top-level metadata under that
name, with no nested kernels and without its first argument. -/
def nestedKernel (env : Env) (parsedFile : String) (allProps : Props)
    (metadata : kernelMetadata) (ki : Nat) : kernel_v :=
  let sKerName := metadata.baseName ++ toString ki
  { env.buildKernel parsedFile sKerName allProps with
    metadata := kernelMetadata.removeArg
      { metadata with name := sKerName, nestedKernels := 0 } 0 }

/-- The loop of `device::buildKernel` over the nested kernel indices `ki`,
appending one sub-kernel per index to `k->nestedKernels`. -/
def buildNestedKernels (env : Env) (parsedFile : String) (allProps : Props)
    (metadata : kernelMetadata) : List Nat → List kernel_v → M (List kernel_v)
  | [], nestedKernels => pure nestedKernels
  | ki :: rest, nestedKernels => do
    let sKerName := metadata.baseName ++ toString ki
    let built ← dcall (Event.buildKernel parsedFile sKerName allProps)
      (fun _ => env.buildKernel parsedFile sKerName allProps)
    let sKer : kernel_v :=
      { built with
        metadata := kernelMetadata.removeArg
          { metadata with name := sKerName, nestedKernels := 0 } 0 }
    if ki = 0 then
      setVerboseCompilation false
    buildNestedKernels env parsedFile allProps metadata rest (nestedKernels ++ [sKer])

/-- The translated source file of `device::buildKernel`: `parsedSource.occa`
in the cache directory of the file hash combined with the hash of `props`. -/
def parsedFileFor (env : Env) (realFilename : String) (props : Props) : String :=
  let hash := env.hashXor (env.hashFile realFilename) (env.propsHash props)
  let hashDir := env.hashDirOfFile realFilename hash
  hashDir ++ "parsedSource.occa"

/-- Method `device::buildKernel`. -/
def buildKernel (env : Env) (filename functionName : String) (props : Props) : M kernel := do
  checkIfInitialized
  let allProps := env.propsAdd (← properties) props
  let realFilename := env.filename filename
  let usingParser := env.fileNeedsParser filename
  if usingParser then
    let k0 ← call (Event.newModeKernel serialProps) (fun _ => env.newModeKernel serialProps)
    let serialDevice ← newModeDevice serialProps
    let k1 : kernel_v := { k0 with dHandle := DeviceRef.fresh serialProps }
    let parsedFile := parsedFileFor env realFilename props
    let deviceMode ← mode
    let metadata ← call
      (Event.parseFileForFunction deviceMode realFilename parsedFile functionName props)
      (fun _ => env.parseFileForFunction deviceMode realFilename parsedFile functionName props)
    let k2 : kernel_v := { k1 with metadata := metadata }
    let info := env.addDefine props "OCCA_LAUNCH_KERNEL" 1
    let buildProps := env.propsAdd serialDevice.properties info
    let native ← call (Event.kernelBuild parsedFile functionName buildProps)
      (fun _ => env.kernelBuild parsedFile functionName buildProps)
    let k3 : kernel_v := { k2 with native := native }
    let k4 : kernel_v := { k3 with nestedKernels := [] }
    if k4.metadata.nestedKernels ≠ 0 then
      let vc_f ← getVerboseCompilation
      let nestedKernels ← buildNestedKernels env parsedFile allProps k4.metadata
        (List.range k4.metadata.nestedKernels.toNat) k4.nestedKernels
      setVerboseCompilation vc_f
      pure { kHandle := { k4 with nestedKernels := nestedKernels } }
    else
      pure { kHandle := k4 }
  else
    let k ← dcall (Event.buildKernel realFilename functionName allProps)
      (fun _ => env.buildKernel realFilename functionName allProps)
    pure { kHandle := { k with dHandle := DeviceRef.facade } }

/-- Method `device::buildKernelFromBinary`. -/
def buildKernelFromBinary (env : Env) (filename functionName : String) : M kernel := do
  checkIfInitialized
  let k ← dcall (Event.buildKernelFromBinary filename functionName)
    (fun _ => env.buildKernelFromBinary filename functionName)
  pure { kHandle := { k with dHandle := DeviceRef.facade } }

/-- Modelled from the spec: `io::haveHash` is not part of `device.cpp`. It
claims ownership of the key for the usage tag if the key is unclaimed, and
returns whether the caller must do the work. -/
def haveHash (hash : hash_t) (tag : String) : M Bool := fun s =>
  match s.hashes hash tag with
  | HashStatus.unclaimed =>
    (Except.ok true,
      { s with hashes := Function.update s.hashes hash
                 (Function.update (s.hashes hash) tag (HashStatus.claimed true)),
               trace := s.trace ++ [Event.haveHash hash tag] })
  | _ => (Except.ok false, { s with trace := s.trace ++ [Event.haveHash hash tag] })

/-- Modelled from the spec: what a `releaseHash(hash, tag)` call does to the
build cache, whoever makes it: the entry is marked complete. -/
def completeEntry (hash : hash_t) (tag : String) (s : State) : State :=
  { s with hashes := Function.update s.hashes hash
             (Function.update (s.hashes hash) tag HashStatus.complete) }

/-- Modelled from the spec: `io::waitForHash` is not part of `device.cpp`. It
blocks until the current owner of the key calls `releaseHash`. On a complete
(or unclaimed) entry there is nothing to wait for. On a key owned by another
builder it returns after that builder's `releaseHash`, and never returns if
that builder does not release. On a key an earlier call of this facade
claimed and left unreleased it never returns. -/
def waitForHash (env : Env) (hash : hash_t) (tag : String) : M Unit := fun s =>
  match s.hashes hash tag with
  | HashStatus.claimed true =>
    (Except.error Failure.neverReturns,
      { s with trace := s.trace ++ [Event.waitForHash hash tag] })
  | HashStatus.claimed false =>
    if env.ownerReleases hash tag then
      (Except.ok (),
        completeEntry hash tag { s with trace := s.trace ++ [Event.waitForHash hash tag] })
    else
      (Except.error Failure.neverReturns,
        { s with trace := s.trace ++ [Event.waitForHash hash tag] })
  | _ => (Except.ok (), { s with trace := s.trace ++ [Event.waitForHash hash tag] })

/-- Modelled from the spec: `io::releaseHash` is not part of `device.cpp`. It
marks the entry complete and wakes the waiters. -/
def releaseHash (hash : hash_t) (tag : String) : M Unit := fun s =>
  (Except.ok (),
    completeEntry hash tag { s with trace := s.trace ++ [Event.releaseHash hash tag] })

/-- The canonical source file name chosen by `buildKernelFromString` for the
declared language. -/
def stringSourceFile (hashDir language : String) : String :=
  if language = "OCCA" then hashDir ++ "stringSource.occa"
  else if language = "OFL" then hashDir ++ "stringSource.ofl"
  else hashDir ++ "stringSource.okl"

/-- Method `device::buildKernelFromString`. -/
def buildKernelFromString (env : Env) (content functionName : String) (props : Props) :
    M kernel := do
  checkIfInitialized
  let allProps := env.propsAdd (← properties) props
  let hash := env.hashXor (env.hashString content) (env.propsHash allProps)
  let hashDir := env.hashDir hash
  let hashTag := "occa-device"
  let language := allProps.getD "language" "OKL"
  let sourceFile := stringSourceFile hashDir language
  if !(← haveHash hash hashTag) then
    waitForHash env hash hashTag
    buildKernelFromBinary env (hashDir ++ env.binaryFile) functionName
  else
    call (Event.write sourceFile content) (fun _ => ())
    let k ← buildKernel env sourceFile functionName allProps
    releaseHash hash hashTag
    pure k

/-! ## Requests to the facade -/

/-- A call of one public method of `occa::device`, with its arguments. -/
inductive Op where
  | getHandle (props : Props)
  | getDHandle
  | setup (props : Props)
  | properties
  | memorySize
  | memoryAllocated
  | hasUvaEnabled
  | mode
  | flush
  | finish
  | createStream
  | freeStream (s : stream)
  | getStream
  | setStream (s : stream)
  | wrapStream (handle : Ptr)
  | tagStream
  | waitFor (tag : streamTag)
  | timeBetween (startTag endTag : streamTag)
  | buildKernel (filename functionName : String) (props : Props)
  | buildKernelFromString (content functionName : String) (props : Props)
  | buildKernelFromBinary (filename functionName : String)
  | malloc (bytes : Int) (src : Ptr) (props : Props)
  | managedAlloc (bytes : Int) (src : Ptr) (props : Props)
  | wrapMemory (handle : Ptr) (bytes : Int) (props : Props)
  | free
deriving DecidableEq, Repr

/-- What a public method hands back. -/
inductive Value where
  | unit
  | pointer (p : Ptr)
  | deviceHandle (d : Option device_v)
  | props (p : Props)
  | size (n : Nat)
  | flag (b : Bool)
  | text (t : String)
  | stream (s : stream)
  | tag (t : streamTag)
  | time (t : TimeValue)
  | kernel (k : kernel)
  | memory (m : memory)

/-- Run one request against the facade. -/
def step (env : Env) : Op → M Value
  | Op.getHandle props => Value.pointer <$> getHandle env props
  | Op.getDHandle => Value.deviceHandle <$> getDHandle
  | Op.setup props => (fun _ => Value.unit) <$> setup env props
  | Op.properties => Value.props <$> properties
  | Op.memorySize => Value.size <$> memorySize env
  | Op.memoryAllocated => Value.size <$> memoryAllocated
  | Op.hasUvaEnabled => Value.flag <$> hasUvaEnabled
  | Op.mode => Value.text <$> mode
  | Op.flush => (fun _ => Value.unit) <$> flush
  | Op.finish => (fun _ => Value.unit) <$> finish env
  | Op.createStream => Value.stream <$> createStream env
  | Op.freeStream s => (fun _ => Value.unit) <$> freeStream s
  | Op.getStream => Value.stream <$> getStream
  | Op.setStream s => (fun _ => Value.unit) <$> setStream s
  | Op.wrapStream handle => Value.stream <$> wrapStream env handle
  | Op.tagStream => Value.tag <$> tagStream env
  | Op.waitFor tag => (fun _ => Value.unit) <$> waitFor tag
  | Op.timeBetween a b => Value.time <$> timeBetween env a b
  | Op.buildKernel filename functionName props =>
    Value.kernel <$> buildKernel env filename functionName props
  | Op.buildKernelFromString content functionName props =>
    Value.kernel <$> buildKernelFromString env content functionName props
  | Op.buildKernelFromBinary filename functionName =>
    Value.kernel <$> buildKernelFromBinary env filename functionName
  | Op.malloc bytes src props => Value.memory <$> malloc env bytes src props
  | Op.managedAlloc bytes src props => Value.pointer <$> managedAlloc env bytes src props
  | Op.wrapMemory handle bytes props => Value.memory <$> wrapMemory env handle bytes props
  | Op.free => (fun _ => Value.unit) <$> free

/-- Run a sequence of requests one after the other; a request that fails
leaves the state it reached and the next one still runs. -/
def runOps (env : Env) (ops : List Op) (s : State) : State :=
  ops.foldl (fun st op => (step env op st).2) s

/-! ## Collaborator calls that throw

The definitions above describe the runs in which every call to a collaborator
returns. The definitions of this section are the same methods with every
such call able to throw: the exception ends the method at that point and is
passed on to the caller, and what the method did before stays done. -/

/-- Which collaborator calls throw: `throws calls e` says whether the call `e`,
made after the calls `calls`, throws instead of returning. -/
structure Faults where
  throws : List Event → Event → Bool

/-- No collaborator call throws. -/
def Faults.none : Faults := { throws := fun _ _ => false }

/-- A call to a collaborator that may throw; the call is recorded either
way. -/
def callUnder {α : Type} (faults : Faults) (e : Event) (ret : List Event → α) : M α := fun s =>
  if faults.throws s.trace e then
    (Except.error (Failure.thrown e), { s with trace := s.trace ++ [e] })
  else call e ret s

/-- A virtual call `dHandle->method(...)` that may throw. -/
def dcallUnder {α : Type} (faults : Faults) (e : Event) (ret : List Event → α) : M α := fun s =>
  match s.dHandle with
  | some _ => callUnder faults e ret s
  | none => (Except.error Failure.nullDereference, s)

/-- Method `device::getHandle`.
Collaborator calls throw where `faults` says so. -/
def getHandleUnder (faults : Faults) (env : Env) (props : Props) : M Ptr :=
  dcallUnder faults (Event.getHandle props) (fun h => env.getHandle h props)

/-- Method `device::memorySize`.
Collaborator calls throw where `faults` says so. -/
def memorySizeUnder (faults : Faults) (env : Env) : M Nat := do
  checkIfInitialized
  dcallUnder faults Event.memorySize env.memorySize

/-- Method `device::flush`.
Collaborator calls throw where `faults` says so. -/
def flushUnder (faults : Faults) : M Unit := do
  checkIfInitialized
  dcallUnder faults Event.flush (fun _ => ())

/-- The loop body of `device::finish`, run for the entries of the dirty list
in index order (the list is not touched inside the loop).
Collaborator calls throw where `faults` says so. -/
def finishLoopUnder (faults : Faults) (env : Env) : List MemRef → M Unit
  | [] => pure ()
  | mem :: rest => do
    let s ← getState
    callUnder faults (Event.memCopyTo mem (s.memories mem).uvaPtr (-1) 0 [("async", "1")])
      (fun _ => ())
    modifyMemory mem (fun m => { m with memInfo := Int.land m.memInfo (Int.lnot env.inDevice) })
    modifyMemory mem (fun m => { m with memInfo := Int.land m.memInfo (Int.lnot env.isDirty) })
    finishLoopUnder faults env rest

/-- Method `device::finish`.
Collaborator calls throw where `faults` says so. -/
def finishUnder (faults : Faults) (env : Env) : M Unit := do
  checkIfInitialized
  if (← dcallUnder faults Event.fakesUva (fun _ => env.fakesUva)) then
    let s ← getState
    let dirtyEntries := s.uvaDirtyMemory.length
    if dirtyEntries ≠ 0 then
      finishLoopUnder faults env s.uvaDirtyMemory
      clearDirtyMemory
  dcallUnder faults Event.finish (fun _ => ())

/-- Method `device::createStream`.
Collaborator calls throw where `faults` says so. -/
def createStreamUnder (faults : Faults) (env : Env) : M stream := do
  checkIfInitialized
  let handle ← dcallUnder faults Event.createStream env.createStream
  let newStream : stream := { dHandle := DeviceRef.facade, handle := handle }
  modifyDevice (fun d => { d with streams := d.streams ++ [newStream.handle] })
  pure newStream

/-- Method `device::freeStream`: the first position `i` of the owned list
with `streams[i] == s.handle`, when there is one, is released and erased.
Collaborator calls throw where `faults` says so. -/
def freeStreamUnder (faults : Faults) (s : stream) : M Unit := do
  checkIfInitialized
  let d ← deref
  match d.streams.indexOf? s.handle with
  | none => pure ()
  | some i => do
    if d.currentStream == s.handle then
      modifyDevice (fun d => { d with currentStream := NULL })
    dcallUnder faults (Event.freeStream (d.streams.getD i NULL)) (fun _ => ())
    modifyDevice (fun d => { d with streams := d.streams.eraseIdx i })

/-- Method `device::wrapStream`.
Collaborator calls throw where `faults` says so. -/
def wrapStreamUnder (faults : Faults) (env : Env) (handle_ : Ptr) : M stream := do
  checkIfInitialized
  let handle ← dcallUnder faults (Event.wrapStream handle_)
    (fun h => env.wrapStream h handle_)
  pure { dHandle := DeviceRef.facade, handle := handle }

/-- Method `device::tagStream`.
Collaborator calls throw where `faults` says so. -/
def tagStreamUnder (faults : Faults) (env : Env) : M streamTag := do
  checkIfInitialized
  dcallUnder faults Event.tagStream env.tagStream

/-- Method `device::waitFor`.
Collaborator calls throw where `faults` says so. -/
def waitForUnder (faults : Faults) (tag : streamTag) : M Unit := do
  checkIfInitialized
  dcallUnder faults (Event.waitFor tag) (fun _ => ())

/-- Method `device::timeBetween`.
Collaborator calls throw where `faults` says so. -/
def timeBetweenUnder (faults : Faults) (env : Env) (startTag endTag : streamTag) :
    M TimeValue := do
  checkIfInitialized
  dcallUnder faults (Event.timeBetween startTag endTag)
    (fun h => env.timeBetween h startTag endTag)

/-- Modelled from the spec: `occa::newModeDevice` is not defined in
`device.cpp`; it constructs the backend instance for the mode named in the
properties, which runs the `device_v` constructor above on them.
Collaborator calls throw where `faults` says so. -/
def newModeDeviceUnder (faults : Faults) (props : Props) : M device_v :=
  callUnder faults (Event.newModeDevice props) (fun _ => device_v.new props)

/-- Method `device::setup`.
Collaborator calls throw where `faults` says so. -/
def setupUnder (faults : Faults) (env : Env) (props : Props) : M Unit := do
  let d ← newModeDeviceUnder faults props
  setDHandle (some d)
  modifyDevice (fun d => { d with uvaEnabled_ := props.lookup "uva" == some "ENABLED" })
  let newStream ← createStreamUnder faults env
  modifyDevice (fun d => { d with currentStream := newStream.handle })

/-- Method `device::malloc`. The counter `bytesAllocated` is a `udim_t`, so
the sum is taken modulo `2 ^ udimBits`.
Collaborator calls throw where `faults` says so. -/
def mallocUnder (faults : Faults) (env : Env) (bytes : Int) (src : Ptr) (props : Props) :
    M memory := do
  checkIfInitialized
  OCCA_CHECK (decide (bytes ≥ 0)) ("Trying to allocate negative bytes (" ++ toString bytes ++ ")")
  let m ← dcallUnder faults (Event.malloc bytes src props)
    (fun h => env.malloc h bytes src props)
  let mHandle ← newMemory m
  modifyMemory mHandle (fun m => { m with dHandle := DeviceRef.facade })
  modifyDevice (fun d =>
    { d with bytesAllocated := (d.bytesAllocated + bytes.toNat) % 2 ^ env.udimBits })
  pure { mHandle := mHandle }

/-- Method `device::managedAlloc`.
Collaborator calls throw where `faults` says so. -/
def managedAllocUnder (faults : Faults) (env : Env) (bytes : Int) (src : Ptr)
    (props : Props) : M Ptr := do
  checkIfInitialized
  OCCA_CHECK (decide (bytes ≥ 0)) ("Trying to allocate negative bytes (" ++ toString bytes ++ ")")
  let mem ← mallocUnder faults env bytes src props
  manage env mem
  let s ← getState
  pure (s.memories mem.mHandle).uvaPtr

/-- Method `device::wrapMemory`.
Collaborator calls throw where `faults` says so. -/
def wrapMemoryUnder (faults : Faults) (env : Env) (handle_ : Ptr) (bytes : Int)
    (props : Props) : M memory := do
  checkIfInitialized
  OCCA_CHECK (decide (bytes ≥ 0))
    ("Trying to wrap memory with negative bytes (" ++ toString bytes ++ ")")
  let m ← dcallUnder faults (Event.wrapMemory handle_ bytes props)
    (fun h => env.wrapMemory h handle_ bytes props)
  let mHandle ← newMemory m
  modifyMemory mHandle (fun m => { m with dHandle := DeviceRef.facade })
  modifyDevice (fun d =>
    { d with bytesAllocated := (d.bytesAllocated + bytes.toNat) % 2 ^ env.udimBits })
  pure { mHandle := mHandle }

/-- The loop of `device::free` over the owned streams.
Collaborator calls throw where `faults` says so. -/
def freeLoopUnder (faults : Faults) : List stream_t → M Unit
  | [] => pure ()
  | h :: rest => do
    dcallUnder faults (Event.freeStream h) (fun _ => ())
    freeLoopUnder faults rest

/-- Method `device::free`.
Collaborator calls throw where `faults` says so. -/
def freeUnder (faults : Faults) : M Unit := do
  checkIfInitialized
  let d ← deref
  freeLoopUnder faults d.streams
  dcallUnder faults Event.free (fun _ => ())
  setDHandle none

/-- The loop of `device::buildKernel` over the nested kernel indices `ki`,
appending one sub-kernel per index to `k->nestedKernels`.
Collaborator calls throw where `faults` says so. -/
def buildNestedKernelsUnder (faults : Faults) (env : Env) (parsedFile : String)
    (allProps : Props) (metadata : kernelMetadata) : List Nat → List kernel_v → M (List kernel_v)
  | [], nestedKernels => pure nestedKernels
  | ki :: rest, nestedKernels => do
    let sKerName := metadata.baseName ++ toString ki
    let built ← dcallUnder faults (Event.buildKernel parsedFile sKerName allProps)
      (fun _ => env.buildKernel parsedFile sKerName allProps)
    let sKer : kernel_v :=
      { built with
        metadata := kernelMetadata.removeArg
          { metadata with name := sKerName, nestedKernels := 0 } 0 }
    if ki = 0 then
      setVerboseCompilation false
    buildNestedKernelsUnder faults env parsedFile allProps metadata rest
      (nestedKernels ++ [sKer])

/-- Method `device::buildKernel`.
Collaborator calls throw where `faults` says so. -/
def buildKernelUnder (faults : Faults) (env : Env) (filename functionName : String)
    (props : Props) : M kernel := do
  checkIfInitialized
  let allProps := env.propsAdd (← properties) props
  let realFilename := env.filename filename
  let usingParser := env.fileNeedsParser filename
  if usingParser then
    let k0 ← callUnder faults (Event.newModeKernel serialProps)
      (fun _ => env.newModeKernel serialProps)
    let serialDevice ← newModeDeviceUnder faults serialProps
    let k1 : kernel_v := { k0 with dHandle := DeviceRef.fresh serialProps }
    let parsedFile := parsedFileFor env realFilename props
    let deviceMode ← mode
    let metadata ← callUnder faults
      (Event.parseFileForFunction deviceMode realFilename parsedFile functionName props)
      (fun _ => env.parseFileForFunction deviceMode realFilename parsedFile functionName props)
    let k2 : kernel_v := { k1 with metadata := metadata }
    let info := env.addDefine props "OCCA_LAUNCH_KERNEL" 1
    let buildProps := env.propsAdd serialDevice.properties info
    let native ← callUnder faults (Event.kernelBuild parsedFile functionName buildProps)
      (fun _ => env.kernelBuild parsedFile functionName buildProps)
    let k3 : kernel_v := { k2 with native := native }
    let k4 : kernel_v := { k3 with nestedKernels := [] }
    if k4.metadata.nestedKernels ≠ 0 then
      let vc_f ← getVerboseCompilation
      let nestedKernels ← buildNestedKernelsUnder faults env parsedFile allProps k4.metadata
        (List.range k4.metadata.nestedKernels.toNat) k4.nestedKernels
      setVerboseCompilation vc_f
      pure { kHandle := { k4 with nestedKernels := nestedKernels } }
    else
      pure { kHandle := k4 }
  else
    let k ← dcallUnder faults (Event.buildKernel realFilename functionName allProps)
      (fun _ => env.buildKernel realFilename functionName allProps)
    pure { kHandle := { k with dHandle := DeviceRef.facade } }

/-- Method `device::buildKernelFromBinary`.
Collaborator calls throw where `faults` says so. -/
def buildKernelFromBinaryUnder (faults : Faults) (env : Env)
    (filename functionName : String) : M kernel := do
  checkIfInitialized
  let k ← dcallUnder faults (Event.buildKernelFromBinary filename functionName)
    (fun _ => env.buildKernelFromBinary filename functionName)
  pure { kHandle := { k with dHandle := DeviceRef.facade } }

/-- Method `device::buildKernelFromString`.
Collaborator calls throw where `faults` says so. -/
def buildKernelFromStringUnder (faults : Faults) (env : Env)
    (content functionName : String) (props : Props) : M kernel := do
  checkIfInitialized
  let allProps := env.propsAdd (← properties) props
  let hash := env.hashXor (env.hashString content) (env.propsHash allProps)
  let hashDir := env.hashDir hash
  let hashTag := "occa-device"
  let language := allProps.getD "language" "OKL"
  let sourceFile := stringSourceFile hashDir language
  if !(← haveHash hash hashTag) then
    waitForHash env hash hashTag
    buildKernelFromBinaryUnder faults env (hashDir ++ env.binaryFile) functionName
  else
    callUnder faults (Event.write sourceFile content) (fun _ => ())
    let k ← buildKernelUnder faults env sourceFile functionName allProps
    releaseHash hash hashTag
    pure k

/-- Run one request against the facade, with collaborator calls that throw
where `faults` says so. -/
def stepUnder (faults : Faults) (env : Env) : Op → M Value
  | Op.getHandle props => Value.pointer <$> getHandleUnder faults env props
  | Op.getDHandle => Value.deviceHandle <$> getDHandle
  | Op.setup props => (fun _ => Value.unit) <$> setupUnder faults env props
  | Op.properties => Value.props <$> properties
  | Op.memorySize => Value.size <$> memorySizeUnder faults env
  | Op.memoryAllocated => Value.size <$> memoryAllocated
  | Op.hasUvaEnabled => Value.flag <$> hasUvaEnabled
  | Op.mode => Value.text <$> mode
  | Op.flush => (fun _ => Value.unit) <$> flushUnder faults
  | Op.finish => (fun _ => Value.unit) <$> finishUnder faults env
  | Op.createStream => Value.stream <$> createStreamUnder faults env
  | Op.freeStream s => (fun _ => Value.unit) <$> freeStreamUnder faults s
  | Op.getStream => Value.stream <$> getStream
  | Op.setStream s => (fun _ => Value.unit) <$> setStream s
  | Op.wrapStream handle => Value.stream <$> wrapStreamUnder faults env handle
  | Op.tagStream => Value.tag <$> tagStreamUnder faults env
  | Op.waitFor tag => (fun _ => Value.unit) <$> waitForUnder faults tag
  | Op.timeBetween a b => Value.time <$> timeBetweenUnder faults env a b
  | Op.buildKernel filename functionName props =>
    Value.kernel <$> buildKernelUnder faults env filename functionName props
  | Op.buildKernelFromString content functionName props =>
    Value.kernel <$> buildKernelFromStringUnder faults env content functionName props
  | Op.buildKernelFromBinary filename functionName =>
    Value.kernel <$> buildKernelFromBinaryUnder faults env filename functionName
  | Op.malloc bytes src props => Value.memory <$> mallocUnder faults env bytes src props
  | Op.managedAlloc bytes src props =>
    Value.pointer <$> managedAllocUnder faults env bytes src props
  | Op.wrapMemory handle bytes props =>
    Value.memory <$> wrapMemoryUnder faults env handle bytes props
  | Op.free => (fun _ => Value.unit) <$> freeUnder faults

/-- Run a sequence of requests one after the other, with collaborator calls
that throw where `faults` says so. -/
def runOpsUnder (faults : Faults) (env : Env) (ops : List Op) (s : State) : State :=
  ops.foldl (fun st op => (stepUnder faults env op st).2) s

/-- The public methods whose body starts with `checkIfInitialized()`: all but
`getHandle`, `getDHandle` and `setup`. -/
def Op.checked : Op → Bool
  | Op.getHandle _ => false
  | Op.getDHandle => false
  | Op.setup _ => false
  | _ => true

/-- The requests that replace or remove the backend instance. -/
def Op.changesInstance : Op → Bool
  | Op.setup _ => true
  | Op.free => true
  | _ => false

/-- The requests that assign `currentStream` a stream of the caller. -/
def Op.isSetStream : Op → Bool
  | Op.setStream _ => true
  | _ => false

/-- The byte count an allocation request adds to `bytesAllocated` when it
goes through: `bytes` for `malloc`, `managedAlloc` and `wrapMemory` with
`bytes >= 0`, nothing for a rejected or any other request. -/
def Op.bytesRequested : Op → Nat
  | Op.malloc bytes _ _ => bytes.toNat
  | Op.managedAlloc bytes _ _ => bytes.toNat
  | Op.wrapMemory _ bytes _ => bytes.toNat
  | _ => 0

/-- The bytes of the allocation requests of `ops` that returned normally, when
`ops` is run from `s`. -/
def succeededBytes (faults : Faults) (env : Env) : List Op → State → Nat
  | [], _ => 0
  | op :: rest, s =>
    (if (stepUnder faults env op s).1.isOk then op.bytesRequested else 0)
      + succeededBytes faults env rest (stepUnder faults env op s).2

/-- The three allocation requests. -/
def Op.isAllocation : Op → Bool
  | Op.malloc _ _ _ => true
  | Op.managedAlloc _ _ _ => true
  | Op.wrapMemory _ _ _ => true
  | _ => false

/-! ## A concrete backend and concrete states -/

/-- A kernel object before anything was built into it. -/
def emptyKernel : kernel_v :=
  { native := 0
    dHandle := DeviceRef.null
    metadata := { name := "", baseName := "", nestedKernels := 0, argumentInfos := [] }
    nestedKernels := [] }

/-- A memory object of the given size with no flags set. -/
def blankMemory (size : Nat) : memory_v :=
  { dHandle := DeviceRef.null, handle := 0, uvaPtr := 0, size := size, memInfo := 0 }

/-- A small deterministic backend with 64-bit `udim_t` that fakes UVA. Stream
handles are numbered by the calls made so far; `wrapStream` returns the
native handle it was given. The translator reports three nested kernels for
the function `addVectors` and none for any other. -/
def demoEnv : Env :=
  { getHandle := fun _ _ => 1
    memorySize := fun _ => 4096
    fakesUva := true
    createStream := fun h => h.length + 1
    wrapStream := fun _ p => p
    tagStream := fun h => h.length
    timeBetween := fun _ a b => (b : Int) - (a : Int)
    buildKernel := fun _ functionName _ =>
      { emptyKernel with native := 2, metadata := { emptyKernel.metadata with name := functionName } }
    buildKernelFromBinary := fun _ _ => { emptyKernel with native := 3 }
    malloc := fun h bytes _ _ => { blankMemory bytes.toNat with handle := h.length + 1 }
    wrapMemory := fun _ p bytes _ => { blankMemory bytes.toNat with handle := p }
    manageUvaPtr := fun h _ => h.length + 1000
    isManaged := 1
    inDevice := 2
    isDirty := 8
    newModeKernel := fun _ => emptyKernel
    kernelBuild := fun _ _ _ => 1
    filename := fun f => f
    fileNeedsParser := fun f => decide (f ≠ "native.cpp")
    hashFile := fun f => f.length
    hashString := fun c => c.length
    hashXor := fun a b => Nat.xor a b
    hashDirOfFile := fun _ _ => "cache/"
    hashDir := fun _ => "cache/"
    binaryFile := "binary"
    parseFileForFunction := fun _ _ _ functionName _ =>
      { name := functionName
        baseName := functionName
        nestedKernels := if functionName = "addVectors" then 3 else 0
        argumentInfos := ["nestedKernels", "a", "b"] }
    propsAdd := fun a b => b ++ a
    propsHash := fun p => p.length
    addDefine := fun p name value => (name, toString value) :: p
    udimBits := 64
    ownerReleases := fun _ _ => true }

/-- A facade that was default-constructed: `dHandle` is `NULL`. -/
def uninitialized : State :=
  { dHandle := none
    memories := fun _ => blankMemory 0
    memoryCount := 0
    uvaDirtyMemory := []
    verboseCompilation := none
    hashes := fun _ _ => HashStatus.unclaimed
    trace := [] }

/-- The backend instance of a Serial device right after `setup`: its default
stream, handle `2`, is owned and current. -/
def serialDevice : device_v :=
  { device_v.new [("mode", "Serial")] with currentStream := 2, streams := [2] }

/-- The state reached by `setup` with `mode = Serial` on a default-constructed
facade; the facade then points to `serialDevice`. -/
def initialized : State :=
  (setup demoEnv [("mode", "Serial")] uninitialized).2

/-- The backend call of `malloc(4096, NULL, [])` throws; every other call
returns. -/
def mallocThrows : Faults :=
  { throws := fun _ e => decide (e = Event.malloc 4096 0 []) }

/-- The Serial pre-pass build `k->build(...)` throws; every other call
returns. -/
def prepassThrows : Faults :=
  { throws := fun _ e =>
      match e with
      | Event.kernelBuild _ _ _ => true
      | _ => false }

/-! ## Reading the record of calls -/

/-- The calls recorded in `after` that were not yet recorded in `before`. -/
def callsSince (before after : State) : List Event :=
  after.trace.drop before.trace.length

/-- The memory object a copy call is made on, for the calls that are copies. -/
def Event.copiedMemory : Event → Option MemRef
  | Event.memCopyTo mem _ _ _ _ => some mem
  | Event.memCopyFrom mem _ _ _ _ => some mem
  | _ => none

/-- A call of `memory_v::copyFrom(src, ...)`: the host pointer is the source
and the device memory object the destination. -/
def Event.isHostToDeviceCopy : Event → Bool
  | Event.memCopyFrom _ _ _ _ _ => true
  | _ => false

/-- The call `mem->copyTo(mem->uvaPtr, -1, 0, occa::properties("async = 1"))`
that `device::finish` makes for a dirty memory. -/
def coherenceCopy (memories : MemRef → memory_v) (mem : MemRef) : Event :=
  Event.memCopyTo mem (memories mem).uvaPtr (-1) 0 [("async", "1")]

/-- The backend compilations `dHandle->buildKernel(...)` among the calls. -/
def Event.isBuildKernel : Event → Bool
  | Event.buildKernel _ _ _ => true
  | _ => false

/-- The calls that translate or compile a source: the translator, the Serial
pre-pass build and the backend's `buildKernel`. -/
def Event.isTranslationOrCompilation : Event → Bool
  | Event.parseFileForFunction _ _ _ _ _ => true
  | Event.kernelBuild _ _ _ => true
  | Event.buildKernel _ _ _ => true
  | _ => false

/-- The calls recorded by the translate-then-compile branch of
`device::buildKernel` for `count` nested kernels. -/
def parserBuildCalls (env : Env) (d : device_v) (filename functionName : String) (props : Props)
    (metadata : kernelMetadata) (count : Nat) : List Event :=
  let realFilename := env.filename filename
  let parsedFile := parsedFileFor env realFilename props
  [ Event.newModeKernel serialProps,
    Event.newModeDevice serialProps,
    Event.parseFileForFunction d.mode realFilename parsedFile functionName props,
    Event.kernelBuild parsedFile functionName
      (env.propsAdd serialProps (env.addDefine props "OCCA_LAUNCH_KERNEL" 1)) ]
  ++ (List.range count).map (fun ki =>
      Event.buildKernel parsedFile (metadata.baseName ++ toString ki)
        (env.propsAdd d.properties props))

/-- The calls `device::buildKernel` makes: the two Serial constructions, the
translation, the Serial pre-pass build and the backend's `buildKernel`. -/
def Event.isBuildStep : Event → Bool
  | Event.newModeKernel _ => true
  | Event.newModeDevice _ => true
  | Event.parseFileForFunction _ _ _ _ _ => true
  | Event.kernelBuild _ _ _ => true
  | Event.buildKernel _ _ _ => true
  | _ => false

/-- The computation `m` leaves the build cache alone and records only calls
that satisfy `Q`, whether it ends in a value or in a failure. -/
structure Records (Q : Event → Prop) {α : Type} (m : M α) : Prop where
  keep : ∀ s, (m s).2.hashes = s.hashes
    ∧ ∃ l, (m s).2.trace = s.trace ++ l ∧ ∀ e ∈ l, Q e

/-- The calls one run of `device::buildKernel` records on a device `d`. -/
def buildKernelCalls (env : Env) (d : device_v) (filename functionName : String)
    (props : Props) : List Event :=
  if env.fileNeedsParser filename then
    parserBuildCalls env d filename functionName props
      (env.parseFileForFunction d.mode (env.filename filename)
        (parsedFileFor env (env.filename filename) props) functionName props)
      (env.parseFileForFunction d.mode (env.filename filename)
        (parsedFileFor env (env.filename filename) props) functionName props).nestedKernels.toNat
  else
    [Event.buildKernel (env.filename filename) functionName (env.propsAdd d.properties props)]

/-- The state `buildKernelFromString` runs `buildKernel` in when it is the
leader for `hash`: the key is claimed and the source file written. -/
def leaderState (s : State) (hash : hash_t) (sourceFile content : String) : State :=
  { s with
    hashes := Function.update s.hashes hash
      (Function.update (s.hashes hash) "occa-device" (HashStatus.claimed true))
    trace := s.trace ++ [Event.haveHash hash "occa-device", Event.write sourceFile content] }

/-- An initialized state with two managed memories, both dirty, memory `1`
marked dirty before memory `0`. -/
def dirtyState : State :=
  { initialized with
    memories := fun m => { blankMemory 16 with uvaPtr := 500 + m, memInfo := 11 }
    memoryCount := 2
    uvaDirtyMemory := [1, 0] }

/-- The message of the failed byte-count check of `malloc` and `managedAlloc`. -/
def negativeAllocMessage (bytes : Int) : String :=
  "Trying to allocate negative bytes (" ++ toString bytes ++ ")"

/-- The message of the failed byte-count check of `wrapMemory`. -/
def negativeWrapMessage (bytes : Int) : String :=
  "Trying to wrap memory with negative bytes (" ++ toString bytes ++ ")"

/-- The computation `m` keeps the property `P` of the facade's `dHandle`,
whether it ends in a value or in a failure. -/
structure Inv (P : Option device_v → Prop) {α : Type} (m : M α) : Prop where
  keep : ∀ s, P s.dHandle → P (m s).2.dHandle

/-- The facade points to a backend instance that satisfies `g`. -/
def Holds (g : device_v → Prop) : Option device_v → Prop :=
  fun h => ∃ d, h = some d ∧ g d

/-! ## Basic facts about the computation type -/

@[simp]
theorem pure_run {α : Type} (a : α) (s : State) :
    (pure a : M α) s = (Except.ok a, s) := rfl

@[simp]
theorem map_run {α β : Type} (f : α → β) (m : M α) (s : State) :
    (f <$> m) s =
      match m s with
      | (Except.ok a, s1) => (Except.ok (f a), s1)
      | (Except.error e, s1) => (Except.error e, s1) := rfl

@[simp]
theorem bind_run {α β : Type} (m : M α) (f : α → M β) (s : State) :
    (m >>= f) s =
      match m s with
      | (Except.ok a, s1) => f a s1
      | (Except.error e, s1) => (Except.error e, s1) := rfl

theorem checkIfInitialized_none (s : State) (h : s.dHandle = none) :
    checkIfInitialized s = (Except.error (Failure.error "Device is not initialized"), s) := by
  simp [checkIfInitialized, OCCA_CHECK, h]

theorem checkIfInitialized_some (s : State) (d : device_v) (h : s.dHandle = some d) :
    checkIfInitialized s = (Except.ok (), s) := by
  simp [checkIfInitialized, OCCA_CHECK, h]

theorem malloc_negative (env : Env) (s : State) (d : device_v) (bytes : Int) (p : Ptr)
    (props : Props) (hinit : s.dHandle = some d) (hneg : bytes < 0) :
    malloc env bytes p props s
      = (Except.error (Failure.error (negativeAllocMessage bytes)), s) := by
  have hb : ¬ (0 ≤ bytes) := not_le.mpr hneg
  simp [malloc, checkIfInitialized_some s d hinit, OCCA_CHECK, hb, negativeAllocMessage]

theorem managedAlloc_negative (env : Env) (s : State) (d : device_v) (bytes : Int) (p : Ptr)
    (props : Props) (hinit : s.dHandle = some d) (hneg : bytes < 0) :
    managedAlloc env bytes p props s
      = (Except.error (Failure.error (negativeAllocMessage bytes)), s) := by
  have hb : ¬ (0 ≤ bytes) := not_le.mpr hneg
  simp [managedAlloc, checkIfInitialized_some s d hinit, OCCA_CHECK, hb, negativeAllocMessage]

theorem wrapMemory_negative (env : Env) (s : State) (d : device_v) (bytes : Int) (p : Ptr)
    (props : Props) (hinit : s.dHandle = some d) (hneg : bytes < 0) :
    wrapMemory env p bytes props s
      = (Except.error (Failure.error (negativeWrapMessage bytes)), s) := by
  have hb : ¬ (0 ≤ bytes) := not_le.mpr hneg
  simp [wrapMemory, checkIfInitialized_some s d hinit, OCCA_CHECK, hb, negativeWrapMessage]

/-- C2: on an initialized device, `malloc`, `managedAlloc` and `wrapMemory`
called with `bytes < 0` fail with the negative-bytes message and leave the
whole state as it was: no backend call is recorded and `memoryAllocated()`
returns what it returned before. -/
theorem negative_bytes_rejected (env : Env) (s : State) (d : device_v)
    (bytes : Int) (p : Ptr) (props : Props)
    (hinit : s.dHandle = some d) (hneg : bytes < 0) :
    malloc env bytes p props s = (Except.error (Failure.error (negativeAllocMessage bytes)), s)
    ∧ managedAlloc env bytes p props s
        = (Except.error (Failure.error (negativeAllocMessage bytes)), s)
    ∧ wrapMemory env p bytes props s
        = (Except.error (Failure.error (negativeWrapMessage bytes)), s)
    ∧ callsSince s (malloc env bytes p props s).2 = []
    ∧ callsSince s (managedAlloc env bytes p props s).2 = []
    ∧ callsSince s (wrapMemory env p bytes props s).2 = []
    ∧ memoryAllocated (malloc env bytes p props s).2 = memoryAllocated s
    ∧ memoryAllocated (managedAlloc env bytes p props s).2 = memoryAllocated s
    ∧ memoryAllocated (wrapMemory env p bytes props s).2 = memoryAllocated s := by
  have h1 := malloc_negative env s d bytes p props hinit hneg
  have h2 := managedAlloc_negative env s d bytes p props hinit hneg
  have h3 := wrapMemory_negative env s d bytes p props hinit hneg
  refine ⟨h1, h2, h3, ?_, ?_, ?_, ?_, ?_, ?_⟩
  · rw [h1]; simp [callsSince]
  · rw [h2]; simp [callsSince]
  · rw [h3]; simp [callsSince]
  · rw [h1]
  · rw [h2]
  · rw [h3]

/-- The three allocation calls with `bytes = -5` on the Serial device. -/
theorem negative_bytes_rejected_witness :
    (malloc demoEnv (-5) 0 [] initialized).1
      = Except.error (Failure.error "Trying to allocate negative bytes (-5)")
    ∧ (managedAlloc demoEnv (-5) 0 [] initialized).1
      = Except.error (Failure.error "Trying to allocate negative bytes (-5)")
    ∧ (wrapMemory demoEnv 0 (-5) [] initialized).1
      = Except.error (Failure.error "Trying to wrap memory with negative bytes (-5)")
    ∧ callsSince initialized (malloc demoEnv (-5) 0 [] initialized).2 = [] :=
  have h := negative_bytes_rejected demoEnv initialized serialDevice (-5) 0 [] rfl (by decide)
  ⟨congrArg Prod.fst h.1, congrArg Prod.fst h.2.1, congrArg Prod.fst h.2.2.1, h.2.2.2.1⟩

theorem freeLoop_eq (d : device_v) : ∀ (l : List stream_t) (s : State), s.dHandle = some d →
    freeLoop l s = (Except.ok (), { s with trace := s.trace ++ l.map Event.freeStream }) := by
  intro l
  induction l with
  | nil => intro s _; simp [freeLoop]
  | cons h rest ih =>
    intro s hinit
    obtain ⟨dh, mems, cnt, dirty, vc, hs, tr⟩ := s
    simp only at hinit
    subst hinit
    simp only [freeLoop, bind_run, dcall, call]
    rw [ih _ rfl]
    simp

theorem free_eq (s : State) (d : device_v) (hinit : s.dHandle = some d) :
    free s
      = (Except.ok (),
          { s with
            dHandle := none
            trace := s.trace ++ d.streams.map Event.freeStream ++ [Event.free] }) := by
  simp [free, checkIfInitialized_some s d hinit, deref, hinit, freeLoop_eq d d.streams s hinit,
    dcall, call, setDHandle]

theorem setup_eq (env : Env) (props : Props) (s : State) :
    setup env props s
      = (Except.ok (),
          { s with
            dHandle := some
              { device_v.new props with
                uvaEnabled_ := props.lookup "uva" == some "ENABLED"
                currentStream := env.createStream (s.trace ++ [Event.newModeDevice props])
                streams := [env.createStream (s.trace ++ [Event.newModeDevice props])] }
            trace := s.trace ++ [Event.newModeDevice props, Event.createStream] }) := by
  simp [setup, newModeDevice, call, setDHandle, modifyDevice, createStream, checkIfInitialized,
    OCCA_CHECK, dcall, device_v.new]

theorem setup_hasUvaEnabled (env : Env) (props : Props) (s : State) :
    (hasUvaEnabled (setup env props s).2).1
      = Except.ok (props.lookup "uva" == some "ENABLED") := by
  rw [setup_eq]
  simp [hasUvaEnabled, checkIfInitialized, OCCA_CHECK, deref, device_v.hasUvaEnabled]

/-- C1 (as stated, refuted): on a default-constructed facade `getDHandle`
returns the `NULL` handle without failing, and `getHandle` dereferences the
`NULL` `dHandle` without first raising "Device is not initialized"; so not
every public operation other than `setup` fails with that error. -/
theorem uninitialized_not_every_op_checked :
    (step demoEnv Op.getDHandle uninitialized).1 = Except.ok (Value.deviceHandle none)
    ∧ (step demoEnv (Op.getHandle []) uninitialized).1
        = Except.error Failure.nullDereference
    ∧ ¬ (∀ op : Op, (∀ props, op ≠ Op.setup props) →
          (step demoEnv op uninitialized).1
            = Except.error (Failure.error "Device is not initialized")) := by
  refine ⟨rfl, rfl, ?_⟩
  intro h
  have h1 := h Op.getDHandle (by intro props hp; cases hp)
  have h2 : (step demoEnv Op.getDHandle uninitialized).1
      = Except.ok (Value.deviceHandle none) := rfl
  rw [h2] at h1
  cases h1

/-- C1 (amended): on a facade whose `dHandle` is `NULL`, every public method
that starts with `checkIfInitialized()` (all but `setup`, `getHandle` and
`getDHandle`) fails with "Device is not initialized" and leaves the state,
the record of backend calls included, untouched; `getDHandle` returns the
`NULL` handle without failing. A successful `free()` leaves the facade in
that state. -/
theorem uninitialized_checked_ops_fail (env : Env) (s : State) (op : Op)
    (hnull : s.dHandle = none) (hop : op.checked = true) :
    step env op s = (Except.error (Failure.error "Device is not initialized"), s)
    ∧ callsSince s (step env op s).2 = []
    ∧ step env Op.getDHandle s = (Except.ok (Value.deviceHandle none), s)
    ∧ (∀ (t : State) (d : device_v), t.dHandle = some d →
        (free t).1 = Except.ok () ∧ (free t).2.dHandle = none) := by
  have hc := checkIfInitialized_none s hnull
  have hfail : step env op s
      = (Except.error (Failure.error "Device is not initialized"), s) := by
    cases op <;> simp [Op.checked] at hop <;>
      simp [step, properties, memorySize, memoryAllocated, hasUvaEnabled, mode, flush, finish,
        createStream, freeStream, getStream, setStream, wrapStream, tagStream, waitFor,
        timeBetween, buildKernel, buildKernelFromString, buildKernelFromBinary, malloc,
        managedAlloc, wrapMemory, free, hc]
  refine ⟨hfail, ?_, ?_, ?_⟩
  · rw [hfail]; simp [callsSince]
  · simp [step, getDHandle, hnull]
  · intro t d ht
    rw [free_eq t d ht]
    exact ⟨rfl, rfl⟩

/-- The guarded request `finish` on the default-constructed facade, and on
the facade left by `free()` after `setup`. -/
theorem uninitialized_checked_ops_fail_witness :
    step demoEnv Op.finish uninitialized
        = (Except.error (Failure.error "Device is not initialized"), uninitialized)
    ∧ (step demoEnv Op.finish (free initialized).2).1
        = Except.error (Failure.error "Device is not initialized") :=
  ⟨(uninitialized_checked_ops_fail demoEnv uninitialized Op.finish rfl rfl).1,
   congrArg Prod.fst
    (uninitialized_checked_ops_fail demoEnv (free initialized).2 Op.finish
      ((uninitialized_checked_ops_fail demoEnv uninitialized Op.finish rfl rfl).2.2.2
        initialized serialDevice rfl).2 rfl).1⟩

/-! ## `finish` -/

theorem finishLoop_cons (env : Env) (mem : MemRef) (rest : List MemRef) (s : State) :
    finishLoop env (mem :: rest) s
      = finishLoop env rest
          { s with
            memories := Function.update s.memories mem
              { s.memories mem with
                memInfo := Int.land (Int.land (s.memories mem).memInfo (Int.lnot env.inDevice))
                  (Int.lnot env.isDirty) }
            trace := s.trace ++ [coherenceCopy s.memories mem] } := by
  simp [finishLoop, getState, call, modifyMemory, coherenceCopy]

theorem finishLoop_spec (env : Env) : ∀ (l : List MemRef) (s : State),
    (finishLoop env l s).1 = Except.ok ()
    ∧ (finishLoop env l s).2.trace = s.trace ++ l.map (coherenceCopy s.memories)
    ∧ (finishLoop env l s).2.dHandle = s.dHandle
    ∧ (finishLoop env l s).2.uvaDirtyMemory = s.uvaDirtyMemory
    ∧ (finishLoop env l s).2.memoryCount = s.memoryCount
    ∧ (finishLoop env l s).2.verboseCompilation = s.verboseCompilation
    ∧ (finishLoop env l s).2.hashes = s.hashes
    ∧ (∀ m, ((finishLoop env l s).2.memories m).uvaPtr = (s.memories m).uvaPtr)
    ∧ (∀ m, m ∉ l → (finishLoop env l s).2.memories m = s.memories m)
    ∧ (∀ m, m ∈ l → ∀ k,
        ((finishLoop env l s).2.memories m).memInfo.testBit k
          = ((s.memories m).memInfo.testBit k
              && !env.inDevice.testBit k && !env.isDirty.testBit k)) := by
  intro l
  induction l with
  | nil => intro s; simp [finishLoop]
  | cons a rest ih =>
    intro s
    rw [finishLoop_cons]
    obtain ⟨h1, h2, h3, h4, h5, h6, h7, h8, h9, h10⟩ := ih
      { s with
        memories := Function.update s.memories a
          { s.memories a with
            memInfo := Int.land (Int.land (s.memories a).memInfo (Int.lnot env.inDevice))
              (Int.lnot env.isDirty) }
        trace := s.trace ++ [coherenceCopy s.memories a] }
    have hptr : ∀ m, ((Function.update s.memories a
          { s.memories a with
            memInfo := Int.land (Int.land (s.memories a).memInfo (Int.lnot env.inDevice))
              (Int.lnot env.isDirty) }) m).uvaPtr = (s.memories m).uvaPtr := by
      intro m
      by_cases hm : m = a
      · subst hm; simp
      · simp [Function.update_noteq hm]
    refine ⟨h1, ?_, h3, h4, h5, h6, h7, ?_, ?_, ?_⟩
    · rw [h2]
      simp only [List.map_cons, List.append_assoc, List.singleton_append]
      congr 2
      apply List.map_congr_left
      intro m _
      simp [coherenceCopy, hptr m]
    · intro m
      rw [h8 m]
      exact hptr m
    · intro m hm
      have hma : m ≠ a := fun h => hm (h ▸ List.mem_cons_self _ _)
      have hmr : m ∉ rest := fun h => hm (List.mem_cons_of_mem _ h)
      rw [h9 m hmr]
      simp [Function.update_noteq hma]
    · intro m hm k
      by_cases hmr : m ∈ rest
      · rw [h10 m hmr k]
        by_cases hma : m = a
        · subst hma
          simp [Int.testBit_land, Int.testBit_lnot]
          cases (s.memories m).memInfo.testBit k <;> cases env.inDevice.testBit k <;>
            cases env.isDirty.testBit k <;> rfl
        · simp [Function.update_noteq hma]
      · have hma : m = a := by
          rcases List.mem_cons.mp hm with h | h
          · exact h
          · exact absurd h hmr
        rw [h9 m hmr]
        subst hma
        simp [Int.testBit_land, Int.testBit_lnot]

theorem finishLoop_ok (env : Env) (l : List MemRef) (s : State) :
    finishLoop env l s = (Except.ok (), (finishLoop env l s).2) :=
  Prod.ext (finishLoop_spec env l s).1 rfl

theorem finish_spec (env : Env) (s : State) (d : device_v)
    (hinit : s.dHandle = some d) (hfake : env.fakesUva = true) :
    (finish env s).1 = Except.ok ()
    ∧ (finish env s).2.trace
        = s.trace ++ [Event.fakesUva] ++ s.uvaDirtyMemory.map (coherenceCopy s.memories)
            ++ [Event.finish]
    ∧ (finish env s).2.dHandle = s.dHandle
    ∧ (finish env s).2.uvaDirtyMemory = []
    ∧ (∀ m, ((finish env s).2.memories m).uvaPtr = (s.memories m).uvaPtr)
    ∧ (∀ m, m ∉ s.uvaDirtyMemory → (finish env s).2.memories m = s.memories m)
    ∧ (∀ m, m ∈ s.uvaDirtyMemory → ∀ k,
        ((finish env s).2.memories m).memInfo.testBit k
          = ((s.memories m).memInfo.testBit k
              && !env.inDevice.testBit k && !env.isDirty.testBit k)) := by
  obtain ⟨dh, mems, cnt, dirty, vc, hs, tr⟩ := s
  simp only at hinit
  subst hinit
  by_cases hl : dirty = []
  · simp [finish, checkIfInitialized, OCCA_CHECK, dcall, call, hfake, getState, hl, finishLoop]
  · have hlen : dirty.length ≠ 0 := by
      simpa [List.length_eq_zero] using hl
    obtain ⟨_, h2, h3, _, _, _, _, h8, h9, h10⟩ := finishLoop_spec env dirty
      { dHandle := some d, memories := mems, memoryCount := cnt, uvaDirtyMemory := dirty,
        verboseCompilation := vc, hashes := hs, trace := tr ++ [Event.fakesUva] }
    have hok := finishLoop_ok env dirty
      { dHandle := some d, memories := mems, memoryCount := cnt, uvaDirtyMemory := dirty,
        verboseCompilation := vc, hashes := hs, trace := tr ++ [Event.fakesUva] }
    simp only [finish, bind_run, checkIfInitialized, OCCA_CHECK, Option.isSome_some, dcall, call,
      hfake, getState, if_true, ne_eq, hlen, not_false_eq_true, clearDirtyMemory]
    rw [hok]
    simp only [h3, h2]
    refine ⟨trivial, ?_, trivial, trivial, ?_, ?_, ?_⟩
    · simp
    · intro m; exact h8 m
    · intro m hm; exact h9 m hm
    · intro m hm k; exact h10 m hm k

theorem callsSince_append (s s1 : State) (l : List Event) (h : s1.trace = s.trace ++ l) :
    callsSince s s1 = l := by
  simp [callsSince, h]

theorem callsSince_finish (env : Env) (s : State) (d : device_v)
    (hinit : s.dHandle = some d) (hfake : env.fakesUva = true) :
    callsSince s (finish env s).2
      = [Event.fakesUva] ++ s.uvaDirtyMemory.map (coherenceCopy s.memories) ++ [Event.finish] := by
  apply callsSince_append
  rw [(finish_spec env s d hinit hfake).2.1]
  simp

theorem copiedMemory_coherenceCopies (memories : MemRef → memory_v) (l : List MemRef) :
    (l.map (coherenceCopy memories)).filterMap Event.copiedMemory = l := by
  induction l with
  | nil => rfl
  | cons a rest ih => simp [coherenceCopy, Event.copiedMemory, List.filterMap_cons] at ih ⊢; exact ih

/-- C4: on an initialized device whose backend fakes UVA and whose dirty list
holds distinct memories, `finish()` succeeds and issues its copies on exactly
the memories of the dirty list, in list order and once each; every bit of
`memInfo` of a dirty memory that belongs to `inDevice` or `isDirty` is
cleared and every other bit keeps its value; the dirty list is empty
afterwards; and a second `finish()` issues no copy. -/
theorem finish_copies_each_dirty_memory_once (env : Env) (s : State) (d : device_v)
    (hinit : s.dHandle = some d) (hfake : env.fakesUva = true)
    (hdistinct : s.uvaDirtyMemory.Nodup) :
    (finish env s).1 = Except.ok ()
    ∧ (callsSince s (finish env s).2).filterMap Event.copiedMemory = s.uvaDirtyMemory
    ∧ (∀ m ∈ s.uvaDirtyMemory,
        ((callsSince s (finish env s).2).filterMap Event.copiedMemory).count m = 1)
    ∧ (∀ m ∈ s.uvaDirtyMemory, ∀ k,
        ((finish env s).2.memories m).memInfo.testBit k
          = ((s.memories m).memInfo.testBit k
              && !env.inDevice.testBit k && !env.isDirty.testBit k))
    ∧ (finish env s).2.uvaDirtyMemory = []
    ∧ (finish env (finish env s).2).1 = Except.ok ()
    ∧ (callsSince (finish env s).2 (finish env (finish env s).2).2).filterMap
        Event.copiedMemory = [] := by
  obtain ⟨h1, _, h3, h4, _, _, h7⟩ := finish_spec env s d hinit hfake
  have hcopies : (callsSince s (finish env s).2).filterMap Event.copiedMemory
      = s.uvaDirtyMemory := by
    rw [callsSince_finish env s d hinit hfake, List.filterMap_append, List.filterMap_append,
      copiedMemory_coherenceCopies]
    simp [Event.copiedMemory]
  have hinit1 : (finish env s).2.dHandle = some d := by rw [h3, hinit]
  refine ⟨h1, hcopies, ?_, h7, h4, (finish_spec env _ d hinit1 hfake).1, ?_⟩
  · intro m hm
    rw [hcopies]
    exact List.count_eq_one_of_mem hdistinct hm
  · rw [callsSince_finish env _ d hinit1 hfake, h4]
    simp [Event.copiedMemory]

/-- The flush of the two dirty memories of `dirtyState`, memory `1` first. -/
theorem finish_copies_each_dirty_memory_once_witness :
    (finish demoEnv dirtyState).1 = Except.ok ()
    ∧ (callsSince dirtyState (finish demoEnv dirtyState).2).filterMap Event.copiedMemory = [1, 0]
    ∧ (finish demoEnv dirtyState).2.uvaDirtyMemory = []
    ∧ (callsSince (finish demoEnv dirtyState).2
        (finish demoEnv (finish demoEnv dirtyState).2).2).filterMap Event.copiedMemory = [] :=
  have h := finish_copies_each_dirty_memory_once demoEnv dirtyState serialDevice rfl rfl
    (by decide)
  ⟨h.1, h.2.1, h.2.2.2.2.1, h.2.2.2.2.2.2⟩

/-- C10 (as stated, refuted): for the two dirty memories of `dirtyState` the
copies issued by `finish()` are `copyTo` calls whose pointer argument, the
destination, is the shadow pointer `uvaPtr`; none of them is a host-to-device
copy with `uvaPtr` as its source. -/
theorem finish_copies_are_not_host_to_device :
    callsSince dirtyState (finish demoEnv dirtyState).2
      = [Event.fakesUva,
         Event.memCopyTo 1 501 (-1) 0 [("async", "1")],
         Event.memCopyTo 0 500 (-1) 0 [("async", "1")],
         Event.finish]
    ∧ ¬ (∀ e ∈ callsSince dirtyState (finish demoEnv dirtyState).2,
          e.copiedMemory.isSome = true → e.isHostToDeviceCopy = true) := by
  have h : callsSince dirtyState (finish demoEnv dirtyState).2
      = [Event.fakesUva,
         Event.memCopyTo 1 501 (-1) 0 [("async", "1")],
         Event.memCopyTo 0 500 (-1) 0 [("async", "1")],
         Event.finish] := by
    rw [callsSince_finish demoEnv dirtyState serialDevice rfl rfl]
    rfl
  refine ⟨h, ?_⟩
  rw [h]
  intro hall
  have := hall (Event.memCopyTo 1 501 (-1) 0 [("async", "1")]) (by simp) rfl
  simp [Event.isHostToDeviceCopy] at this

/-- C10 (amended): on an initialized device whose backend fakes UVA,
`finish()` makes these backend calls and no others: the `fakesUva` query, then
for each entry of the dirty list in order one asynchronous (`async = 1`)
`copyTo` on that memory with destination `uvaPtr`, byte count `-1` (the full
extent) and offset `0`, and last the blocking backend `finish`; so every
copy precedes the backend `finish`, and no call is a host-to-device copy. -/
theorem finish_copies_precede_backend_finish (env : Env) (s : State) (d : device_v)
    (hinit : s.dHandle = some d) (hfake : env.fakesUva = true) :
    (finish env s).1 = Except.ok ()
    ∧ callsSince s (finish env s).2
        = [Event.fakesUva]
          ++ s.uvaDirtyMemory.map
              (fun mem => Event.memCopyTo mem (s.memories mem).uvaPtr (-1) 0 [("async", "1")])
          ++ [Event.finish]
    ∧ (∀ e ∈ callsSince s (finish env s).2, e.isHostToDeviceCopy = false) := by
  have hcalls := callsSince_finish env s d hinit hfake
  refine ⟨(finish_spec env s d hinit hfake).1, hcalls, ?_⟩
  intro e he
  rw [hcalls] at he
  simp only [List.mem_append, List.mem_singleton, List.mem_map] at he
  rcases he with (he | ⟨m, _, he⟩) | he <;> subst he <;> rfl

/-- The backend calls of `finish()` on `dirtyState`. -/
theorem finish_copies_precede_backend_finish_witness :
    (finish demoEnv dirtyState).1 = Except.ok ()
    ∧ callsSince dirtyState (finish demoEnv dirtyState).2
        = [Event.fakesUva]
          ++ [1, 0].map
              (fun mem => Event.memCopyTo mem (dirtyState.memories mem).uvaPtr (-1) 0
                [("async", "1")])
          ++ [Event.finish] :=
  have h := finish_copies_precede_backend_finish demoEnv dirtyState serialDevice rfl rfl
  ⟨h.1, h.2.1⟩

/-! ## Invariants of the backend handle -/

theorem inv_pure (P : Option device_v → Prop) {α : Type} (a : α) : Inv P (pure a : M α) :=
  ⟨fun _ h => h⟩

theorem inv_bind (P : Option device_v → Prop) {α β : Type} (m : M α) (f : α → M β)
    (hm : Inv P m) (hf : ∀ a, Inv P (f a)) : Inv P (m >>= f) := by
  constructor
  intro s hP
  have h1 := hm.keep s hP
  rw [bind_run]
  rcases hms : m s with ⟨r, s1⟩
  rw [hms] at h1
  cases r with
  | error e => exact h1
  | ok a => exact (hf a).keep s1 h1

theorem inv_map (P : Option device_v → Prop) {α β : Type} (m : M α) (f : α → β)
    (hm : Inv P m) : Inv P (f <$> m) := by
  constructor
  intro s hP
  have h1 := hm.keep s hP
  rw [map_run]
  rcases hms : m s with ⟨r, s1⟩
  rw [hms] at h1
  cases r <;> exact h1

theorem inv_ite (P : Option device_v → Prop) {α : Type} (c : Prop) [Decidable c]
    (m1 m2 : M α) (h1 : Inv P m1) (h2 : Inv P m2) : Inv P (if c then m1 else m2) := by
  split
  · exact h1
  · exact h2

theorem inv_OCCA_CHECK (P : Option device_v → Prop) (c : Bool) (msg : String) :
    Inv P (OCCA_CHECK c msg) := by
  constructor
  intro s hP
  unfold OCCA_CHECK
  split <;> exact hP

theorem inv_checkIfInitialized (P : Option device_v → Prop) : Inv P checkIfInitialized :=
  ⟨fun s hP => (inv_OCCA_CHECK P _ _).keep s hP⟩

theorem inv_getState (P : Option device_v → Prop) : Inv P getState := ⟨fun _ h => h⟩

theorem inv_call (P : Option device_v → Prop) {α : Type} (e : Event) (ret : List Event → α) :
    Inv P (call e ret) := ⟨fun _ h => h⟩

theorem inv_dcall (P : Option device_v → Prop) {α : Type} (e : Event) (ret : List Event → α) :
    Inv P (dcall e ret) := by
  constructor
  intro s hP
  unfold dcall
  split
  · exact hP
  · exact hP

theorem inv_deref (P : Option device_v → Prop) : Inv P deref := by
  constructor
  intro s hP
  unfold deref
  split <;> exact hP

theorem inv_modifyMemory (P : Option device_v → Prop) (mem : MemRef) (f : memory_v → memory_v) :
    Inv P (modifyMemory mem f) := ⟨fun _ h => h⟩

theorem inv_newMemory (P : Option device_v → Prop) (m : memory_v) : Inv P (newMemory m) :=
  ⟨fun _ h => h⟩

theorem inv_clearDirtyMemory (P : Option device_v → Prop) : Inv P clearDirtyMemory :=
  ⟨fun _ h => h⟩

theorem inv_haveHash (P : Option device_v → Prop) (hash : hash_t) (tag : String) :
    Inv P (haveHash hash tag) := by
  constructor
  intro s hP
  unfold haveHash
  split <;> exact hP

theorem inv_waitForHash (P : Option device_v → Prop) (env : Env) (hash : hash_t)
    (tag : String) : Inv P (waitForHash env hash tag) := by
  constructor
  intro s hP
  unfold waitForHash
  split
  · exact hP
  · split <;> exact hP
  · exact hP

theorem inv_releaseHash (P : Option device_v → Prop) (hash : hash_t) (tag : String) :
    Inv P (releaseHash hash tag) := ⟨fun _ h => h⟩

theorem inv_modifyDevice (g : device_v → Prop) (f : device_v → device_v)
    (hf : ∀ d, g d → g (f d)) : Inv (Holds g) (modifyDevice f) := by
  constructor
  intro s hP
  obtain ⟨d, hd, hg⟩ := hP
  simp only [modifyDevice, hd]
  exact ⟨f d, rfl, hf d hg⟩

theorem inv_finishLoop (P : Option device_v → Prop) (env : Env) (l : List MemRef) :
    Inv P (finishLoop env l) := by
  constructor
  intro s hP
  rw [(finishLoop_spec env l s).2.2.1]
  exact hP

theorem inv_finish (P : Option device_v → Prop) (env : Env) : Inv P (finish env) := by
  unfold finish
  repeat' first
    | exact inv_pure _ _
    | exact inv_checkIfInitialized _
    | exact inv_getState _
    | exact inv_dcall _ _ _
    | exact inv_clearDirtyMemory _
    | exact inv_finishLoop _ _ _
    | apply inv_bind
    | apply inv_ite
    | intro _

theorem inv_properties (P : Option device_v → Prop) : Inv P properties :=
  inv_bind _ _ _ (inv_checkIfInitialized _)
    (fun _ => inv_bind _ _ _ (inv_deref _) (fun _ => inv_pure _ _))

theorem inv_memorySize (P : Option device_v → Prop) (env : Env) : Inv P (memorySize env) :=
  inv_bind _ _ _ (inv_checkIfInitialized _) (fun _ => inv_dcall _ _ _)

theorem inv_memoryAllocated (P : Option device_v → Prop) : Inv P memoryAllocated :=
  inv_bind _ _ _ (inv_checkIfInitialized _)
    (fun _ => inv_bind _ _ _ (inv_deref _) (fun _ => inv_pure _ _))

theorem inv_hasUvaEnabled (P : Option device_v → Prop) : Inv P hasUvaEnabled :=
  inv_bind _ _ _ (inv_checkIfInitialized _)
    (fun _ => inv_bind _ _ _ (inv_deref _) (fun _ => inv_pure _ _))

theorem inv_mode (P : Option device_v → Prop) : Inv P mode :=
  inv_bind _ _ _ (inv_checkIfInitialized _)
    (fun _ => inv_bind _ _ _ (inv_deref _) (fun _ => inv_pure _ _))

theorem inv_flush (P : Option device_v → Prop) : Inv P flush :=
  inv_bind _ _ _ (inv_checkIfInitialized _) (fun _ => inv_dcall _ _ _)

theorem inv_getHandle (P : Option device_v → Prop) (env : Env) (props : Props) :
    Inv P (getHandle env props) := inv_dcall P _ _

theorem inv_getDHandle (P : Option device_v → Prop) : Inv P getDHandle := ⟨fun _ h => h⟩

theorem inv_getStream (P : Option device_v → Prop) : Inv P getStream :=
  inv_bind _ _ _ (inv_checkIfInitialized _)
    (fun _ => inv_bind _ _ _ (inv_deref _) (fun _ => inv_pure _ _))

theorem inv_wrapStream (P : Option device_v → Prop) (env : Env) (handle : Ptr) :
    Inv P (wrapStream env handle) :=
  inv_bind _ _ _ (inv_checkIfInitialized _)
    (fun _ => inv_bind _ _ _ (inv_dcall _ _ _) (fun _ => inv_pure _ _))

theorem inv_tagStream (P : Option device_v → Prop) (env : Env) : Inv P (tagStream env) :=
  inv_bind _ _ _ (inv_checkIfInitialized _) (fun _ => inv_dcall _ _ _)

theorem inv_waitFor (P : Option device_v → Prop) (tag : streamTag) : Inv P (waitFor tag) :=
  inv_bind _ _ _ (inv_checkIfInitialized _) (fun _ => inv_dcall _ _ _)

theorem inv_timeBetween (P : Option device_v → Prop) (env : Env) (a b : streamTag) :
    Inv P (timeBetween env a b) :=
  inv_bind _ _ _ (inv_checkIfInitialized _) (fun _ => inv_dcall _ _ _)

/-! ## `buildKernel` -/

theorem buildNestedKernels_eq (env : Env) (parsedFile : String) (allProps : Props)
    (metadata : kernelMetadata) (d : device_v) :
    ∀ (l : List Nat) (acc : List kernel_v) (s : State), s.dHandle = some d →
      buildNestedKernels env parsedFile allProps metadata l acc s
        = (Except.ok (acc ++ l.map (nestedKernel env parsedFile allProps metadata)),
            { s with
              trace := s.trace ++ l.map (fun ki =>
                Event.buildKernel parsedFile (metadata.baseName ++ toString ki) allProps)
              verboseCompilation :=
                if 0 ∈ l then some false else s.verboseCompilation }) := by
  intro l
  induction l with
  | nil => intro acc s _; simp [buildNestedKernels]
  | cons ki rest ih =>
    intro acc s hinit
    by_cases hki : ki = 0
    · have hstep : buildNestedKernels env parsedFile allProps metadata (ki :: rest) acc s
          = buildNestedKernels env parsedFile allProps metadata rest
              (acc ++ [nestedKernel env parsedFile allProps metadata ki])
              { s with
                trace := s.trace ++ [Event.buildKernel parsedFile
                  (metadata.baseName ++ toString ki) allProps]
                verboseCompilation := some false } := by
        simp [buildNestedKernels, dcall, call, hinit, hki, setVerboseCompilation, nestedKernel]
      rw [hstep, ih _
        { s with
          trace := s.trace ++ [Event.buildKernel parsedFile
            (metadata.baseName ++ toString ki) allProps]
          verboseCompilation := some false } hinit]
      simp [hki]
    · have hstep : buildNestedKernels env parsedFile allProps metadata (ki :: rest) acc s
          = buildNestedKernels env parsedFile allProps metadata rest
              (acc ++ [nestedKernel env parsedFile allProps metadata ki])
              { s with
                trace := s.trace ++ [Event.buildKernel parsedFile
                  (metadata.baseName ++ toString ki) allProps] } := by
        simp [buildNestedKernels, dcall, call, hinit, hki, nestedKernel]
      rw [hstep, ih _
        { s with
          trace := s.trace ++ [Event.buildKernel parsedFile
            (metadata.baseName ++ toString ki) allProps] } hinit]
      have hne : ¬ (0 = ki) := fun h => hki h.symm
      simp [hne]

theorem buildKernel_parser_eq (env : Env) (s : State) (d : device_v)
    (filename functionName : String) (props : Props)
    (hinit : s.dHandle = some d) (hparse : env.fileNeedsParser filename = true) :
    buildKernel env filename functionName props s
      = (Except.ok
          { kHandle :=
            { native := env.kernelBuild (parsedFileFor env (env.filename filename) props)
                functionName
                (env.propsAdd serialProps (env.addDefine props "OCCA_LAUNCH_KERNEL" 1))
              dHandle := DeviceRef.fresh serialProps
              metadata := env.parseFileForFunction d.mode (env.filename filename)
                (parsedFileFor env (env.filename filename) props) functionName props
              nestedKernels :=
                (List.range (env.parseFileForFunction d.mode (env.filename filename)
                    (parsedFileFor env (env.filename filename) props) functionName
                    props).nestedKernels.toNat).map
                  (nestedKernel env (parsedFileFor env (env.filename filename) props)
                    (env.propsAdd d.properties props)
                    (env.parseFileForFunction d.mode (env.filename filename)
                      (parsedFileFor env (env.filename filename) props) functionName props)) } },
          { s with
            trace := s.trace ++ parserBuildCalls env d filename functionName props
              (env.parseFileForFunction d.mode (env.filename filename)
                (parsedFileFor env (env.filename filename) props) functionName props)
              (env.parseFileForFunction d.mode (env.filename filename)
                (parsedFileFor env (env.filename filename) props) functionName
                props).nestedKernels.toNat
            verboseCompilation :=
              if (env.parseFileForFunction d.mode (env.filename filename)
                (parsedFileFor env (env.filename filename) props) functionName
                props).nestedKernels = 0 then s.verboseCompilation
              else some (s.verboseCompilation.getD true) }) := by
  obtain ⟨dh, mems, cnt, dirty, vc, hs, tr⟩ := s
  simp only at hinit
  subst hinit
  by_cases hN : (env.parseFileForFunction d.mode (env.filename filename)
      (parsedFileFor env (env.filename filename) props) functionName props).nestedKernels = 0
  · simp [buildKernel, checkIfInitialized, OCCA_CHECK, properties, deref, mode, call,
      newModeDevice, device_v.new, hparse, hN, parserBuildCalls]
  · simp [buildKernel, checkIfInitialized, OCCA_CHECK, properties, deref, mode, call,
      newModeDevice, device_v.new, hparse, hN, getVerboseCompilation, setVerboseCompilation]
    rw [buildNestedKernels_eq env _ _ _ d]
    · simp [parserBuildCalls]
    · rfl

theorem buildKernel_direct_eq (env : Env) (s : State) (d : device_v)
    (filename functionName : String) (props : Props)
    (hinit : s.dHandle = some d) (hparse : env.fileNeedsParser filename = false) :
    buildKernel env filename functionName props s
      = (Except.ok
          { kHandle :=
            { env.buildKernel (env.filename filename) functionName
                (env.propsAdd d.properties props) with dHandle := DeviceRef.facade } },
          { s with
            trace := s.trace ++ [Event.buildKernel (env.filename filename) functionName
              (env.propsAdd d.properties props)] }) := by
  obtain ⟨dh, mems, cnt, dirty, vc, hs, tr⟩ := s
  simp only at hinit
  subst hinit
  simp [buildKernel, checkIfInitialized, OCCA_CHECK, properties, deref, dcall, call, hparse]

/-- C6: when the source needs translation and the translation metadata
reports `N >= 1` nested kernels with base name `B`, `buildKernel` returns a
kernel with exactly `N` nested kernels; the one at index `i` is what the
target backend's `buildKernel` returned for the translated source under the
name `B` followed by the decimal digits of `i`, carrying the top-level
metadata with that name, `nestedKernels = 0` and the first argument removed;
and the target backend compiled exactly these `N` names, in index order. -/
theorem buildKernel_builds_nested_kernels (env : Env) (s : State) (d : device_v)
    (filename functionName parsedFile : String) (props : Props) (metadata : kernelMetadata)
    (N : Nat)
    (hinit : s.dHandle = some d) (hparse : env.fileNeedsParser filename = true)
    (hfile : parsedFile = parsedFileFor env (env.filename filename) props)
    (hmeta : metadata = env.parseFileForFunction d.mode (env.filename filename) parsedFile
      functionName props)
    (hN : metadata.nestedKernels = (N : Int)) (_hpos : 1 ≤ N) :
    ∃ ker : kernel,
      (buildKernel env filename functionName props s).1 = Except.ok ker
      ∧ ker.kHandle.nestedKernels.length = N
      ∧ (∀ i, i < N →
          ker.kHandle.nestedKernels[i]?
            = some
                { env.buildKernel parsedFile (metadata.baseName ++ toString i)
                    (env.propsAdd d.properties props) with
                  metadata :=
                    { name := metadata.baseName ++ toString i
                      baseName := metadata.baseName
                      nestedKernels := 0
                      argumentInfos := metadata.argumentInfos.eraseIdx 0 } })
      ∧ (callsSince s (buildKernel env filename functionName props s).2).filter
            Event.isBuildKernel
          = (List.range N).map (fun i =>
              Event.buildKernel parsedFile (metadata.baseName ++ toString i)
                (env.propsAdd d.properties props)) := by
  subst hfile
  subst hmeta
  rw [buildKernel_parser_eq env s d filename functionName props hinit hparse]
  refine ⟨_, rfl, ?_, ?_, ?_⟩
  · simp [hN]
  · intro i hi
    simp [hN, List.getElem?_map, List.getElem?_range, hi, nestedKernel,
      kernelMetadata.removeArg]
  · rw [callsSince_append _ _ _ rfl]
    simp [parserBuildCalls, hN, List.filter_append, List.filter_map, Event.isBuildKernel,
      Function.comp_def]

/-- The three nested kernels built for `addVectors` on the Serial device. -/
theorem buildKernel_builds_nested_kernels_witness :
    ∃ ker : kernel,
      (buildKernel demoEnv "addVectors.okl" "addVectors" [] initialized).1 = Except.ok ker
      ∧ ker.kHandle.nestedKernels.length = 3
      ∧ (∀ i, i < 3 →
          ker.kHandle.nestedKernels[i]?
            = some
                { demoEnv.buildKernel "cache/parsedSource.occa" ("addVectors" ++ toString i)
                    (demoEnv.propsAdd serialDevice.properties []) with
                  metadata :=
                    { name := "addVectors" ++ toString i
                      baseName := "addVectors"
                      nestedKernels := 0
                      argumentInfos := ["a", "b"] } })
      ∧ (callsSince initialized
            (buildKernel demoEnv "addVectors.okl" "addVectors" [] initialized).2).filter
            Event.isBuildKernel
          = (List.range 3).map (fun i =>
              Event.buildKernel "cache/parsedSource.occa" ("addVectors" ++ toString i)
                (demoEnv.propsAdd serialDevice.properties [])) :=
  buildKernel_builds_nested_kernels demoEnv initialized serialDevice "addVectors.okl"
    "addVectors" "cache/parsedSource.occa" []
    { name := "addVectors", baseName := "addVectors", nestedKernels := 3,
      argumentInfos := ["nestedKernels", "a", "b"] }
    3 rfl (by decide) (by decide) (by decide) rfl (by decide)

/-- C7 (as stated, refuted): for the function `scale`, whose translation
metadata reports no nested kernel, `buildKernel` never calls the device's own
backend `buildKernel`; the kernel it returns is the Serial pre-pass kernel
(artifact `1` of `k->build`, owned by the Serial reference device). -/
theorem buildKernel_without_nested_skips_target_backend :
    (demoEnv.parseFileForFunction serialDevice.mode "scale.okl" "cache/parsedSource.occa"
        "scale" []).nestedKernels = 0
    ∧ ((callsSince initialized (buildKernel demoEnv "scale.okl" "scale" [] initialized).2).filter
          Event.isBuildKernel).length = 0
    ∧ (buildKernel demoEnv "scale.okl" "scale" [] initialized).1.toOption.map
          (fun ker => (ker.kHandle.native, ker.kHandle.dHandle))
        = some (1, DeviceRef.fresh serialProps) := by
  refine ⟨by decide, ?_, ?_⟩
  · rw [buildKernel_parser_eq demoEnv initialized serialDevice "scale.okl" "scale" [] rfl
      (by decide)]
    rw [callsSince_append _ _ _ rfl]
    decide
  · rw [buildKernel_parser_eq demoEnv initialized serialDevice "scale.okl" "scale" [] rfl
      (by decide)]
    rfl

/-- C7 (amended): when the source needs translation and the translation
metadata reports no nested kernel, `buildKernel` returns the kernel of the
structural pre-pass: the Serial kernel object, owned by the Serial reference
device, holding the translation metadata, the artifact of `k->build` on the
translated source and an empty nested-kernel list. The calls made are the
two Serial constructions, the translation and that one Serial build; the
device's own backend `buildKernel` is not called. -/
theorem buildKernel_without_nested_returns_prepass (env : Env) (s : State) (d : device_v)
    (filename functionName parsedFile : String) (props : Props) (metadata : kernelMetadata)
    (hinit : s.dHandle = some d) (hparse : env.fileNeedsParser filename = true)
    (hfile : parsedFile = parsedFileFor env (env.filename filename) props)
    (hmeta : metadata = env.parseFileForFunction d.mode (env.filename filename) parsedFile
      functionName props)
    (hN : metadata.nestedKernels = 0) :
    (buildKernel env filename functionName props s).1
      = Except.ok
          { kHandle :=
            { native := env.kernelBuild parsedFile functionName
                (env.propsAdd serialProps (env.addDefine props "OCCA_LAUNCH_KERNEL" 1))
              dHandle := DeviceRef.fresh serialProps
              metadata := metadata
              nestedKernels := [] } }
    ∧ callsSince s (buildKernel env filename functionName props s).2
        = [ Event.newModeKernel serialProps,
            Event.newModeDevice serialProps,
            Event.parseFileForFunction d.mode (env.filename filename) parsedFile functionName
              props,
            Event.kernelBuild parsedFile functionName
              (env.propsAdd serialProps (env.addDefine props "OCCA_LAUNCH_KERNEL" 1)) ]
    ∧ (callsSince s (buildKernel env filename functionName props s).2).filter
          Event.isBuildKernel = [] := by
  subst hfile
  subst hmeta
  rw [buildKernel_parser_eq env s d filename functionName props hinit hparse]
  rw [callsSince_append _ _ _ rfl]
  simp [hN, parserBuildCalls, Event.isBuildKernel]

/-- The build of `scale`, which has no nested kernel, on the Serial device. -/
theorem buildKernel_without_nested_returns_prepass_witness :
    (buildKernel demoEnv "scale.okl" "scale" [] initialized).1
      = Except.ok
          { kHandle :=
            { native := 1
              dHandle := DeviceRef.fresh serialProps
              metadata :=
                { name := "scale", baseName := "scale", nestedKernels := 0,
                  argumentInfos := ["nestedKernels", "a", "b"] }
              nestedKernels := [] } }
    ∧ callsSince initialized (buildKernel demoEnv "scale.okl" "scale" [] initialized).2
        = [ Event.newModeKernel serialProps,
            Event.newModeDevice serialProps,
            Event.parseFileForFunction "Serial" "scale.okl" "cache/parsedSource.occa" "scale" [],
            Event.kernelBuild "cache/parsedSource.occa" "scale"
              [("OCCA_LAUNCH_KERNEL", "1"), ("mode", "Serial")] ]
    ∧ (callsSince initialized (buildKernel demoEnv "scale.okl" "scale" [] initialized).2).filter
          Event.isBuildKernel = [] :=
  buildKernel_without_nested_returns_prepass demoEnv initialized serialDevice "scale.okl"
    "scale" "cache/parsedSource.occa" []
    { name := "scale", baseName := "scale", nestedKernels := 0,
      argumentInfos := ["nestedKernels", "a", "b"] }
    rfl (by decide) (by decide) (by decide) rfl

/-! ## `buildKernelFromString` -/

theorem buildKernel_total (env : Env) (s : State) (d : device_v)
    (filename functionName : String) (props : Props) (hinit : s.dHandle = some d) :
    (∃ ker, (buildKernel env filename functionName props s).1 = Except.ok ker)
    ∧ (buildKernel env filename functionName props s).2.trace
        = s.trace ++ buildKernelCalls env d filename functionName props
    ∧ (buildKernel env filename functionName props s).2.dHandle = s.dHandle
    ∧ (buildKernel env filename functionName props s).2.hashes = s.hashes := by
  cases hparse : env.fileNeedsParser filename with
  | true =>
    rw [buildKernel_parser_eq env s d filename functionName props hinit hparse]
    exact ⟨⟨_, rfl⟩, by simp [buildKernelCalls, hparse], rfl, rfl⟩
  | false =>
    rw [buildKernel_direct_eq env s d filename functionName props hinit hparse]
    exact ⟨⟨_, rfl⟩, by simp [buildKernelCalls, hparse], rfl, rfl⟩

theorem buildKernel_ok (env : Env) (s : State) (d : device_v)
    (filename functionName : String) (props : Props) (hinit : s.dHandle = some d) :
    ∃ ker, buildKernel env filename functionName props s
      = (Except.ok ker, (buildKernel env filename functionName props s).2) := by
  obtain ⟨⟨ker, hker⟩, _⟩ := buildKernel_total env s d filename functionName props hinit
  exact ⟨ker, Prod.ext hker rfl⟩

/-! ## Which requests can change which field of the backend instance -/

theorem inv_buildKernelFromBinary (P : Option device_v → Prop) (env : Env)
    (filename functionName : String) : Inv P (buildKernelFromBinary env filename functionName) := by
  unfold buildKernelFromBinary
  exact inv_bind _ _ _ (inv_checkIfInitialized _)
    (fun _ => inv_bind _ _ _ (inv_dcall _ _ _) (fun _ => inv_pure _ _))

theorem inv_buildKernel (P : Option device_v → Prop) (env : Env)
    (filename functionName : String) (props : Props) :
    Inv P (buildKernel env filename functionName props) := by
  constructor
  intro s hP
  cases hd : s.dHandle with
  | none =>
    have h : buildKernel env filename functionName props s
        = (Except.error (Failure.error "Device is not initialized"), s) := by
      simp [buildKernel, checkIfInitialized_none s hd]
    rw [h]
    exact hP
  | some d =>
    rw [(buildKernel_total env s d filename functionName props hd).2.2.1]
    exact hP

theorem inv_buildKernelFromString (P : Option device_v → Prop) (env : Env)
    (content functionName : String) (props : Props) :
    Inv P (buildKernelFromString env content functionName props) := by
  unfold buildKernelFromString
  repeat' first
    | exact inv_pure _ _
    | exact inv_checkIfInitialized _
    | exact inv_properties _
    | exact inv_call _ _ _
    | exact inv_haveHash _ _ _
    | exact inv_waitForHash _ _ _ _
    | exact inv_releaseHash _ _ _
    | exact inv_buildKernel _ _ _ _ _
    | exact inv_buildKernelFromBinary _ _ _ _
    | apply inv_bind
    | apply inv_ite
    | intro _

theorem inv_createStream (g : device_v → Prop) (env : Env)
    (hs : ∀ d l, g d → g { d with streams := l }) : Inv (Holds g) (createStream env) := by
  unfold createStream
  exact inv_bind _ _ _ (inv_checkIfInitialized _)
    (fun _ => inv_bind _ _ _ (inv_dcall _ _ _)
      (fun _ => inv_bind _ _ _ (inv_modifyDevice _ _ (fun _ h => hs _ _ h))
        (fun _ => inv_pure _ _)))

theorem inv_freeStream (g : device_v → Prop) (st : stream)
    (hs : ∀ d l, g d → g { d with streams := l })
    (hc : ∀ d, g d → g { d with currentStream := NULL }) : Inv (Holds g) (freeStream st) := by
  unfold freeStream
  apply inv_bind _ _ _ (inv_checkIfInitialized _)
  intro _
  apply inv_bind _ _ _ (inv_deref _)
  intro d
  dsimp only
  split
  · exact inv_pure _ _
  · apply inv_ite
    · exact inv_bind _ _ _ (inv_modifyDevice _ _ (fun _ h => hc _ h))
        (fun _ => inv_bind _ _ _ (inv_dcall _ _ _)
          (fun _ => inv_modifyDevice _ _ (fun _ h => hs _ _ h)))
    · exact inv_bind _ _ _ (inv_pure _ _)
        (fun _ => inv_bind _ _ _ (inv_dcall _ _ _)
          (fun _ => inv_modifyDevice _ _ (fun _ h => hs _ _ h)))

theorem inv_malloc (g : device_v → Prop) (env : Env) (bytes : Int) (src : Ptr) (props : Props)
    (hb : ∀ d n, g d → g { d with bytesAllocated := n }) :
    Inv (Holds g) (malloc env bytes src props) := by
  unfold malloc
  exact inv_bind _ _ _ (inv_checkIfInitialized _)
    (fun _ => inv_bind _ _ _ (inv_OCCA_CHECK _ _ _)
      (fun _ => inv_bind _ _ _ (inv_dcall _ _ _)
        (fun _ => inv_bind _ _ _ (inv_newMemory _ _)
          (fun _ => inv_bind _ _ _ (inv_modifyMemory _ _ _)
            (fun _ => inv_bind _ _ _ (inv_modifyDevice _ _ (fun _ h => hb _ _ h))
              (fun _ => inv_pure _ _))))))

theorem inv_wrapMemory (g : device_v → Prop) (env : Env) (handle : Ptr) (bytes : Int)
    (props : Props) (hb : ∀ d n, g d → g { d with bytesAllocated := n }) :
    Inv (Holds g) (wrapMemory env handle bytes props) := by
  unfold wrapMemory
  exact inv_bind _ _ _ (inv_checkIfInitialized _)
    (fun _ => inv_bind _ _ _ (inv_OCCA_CHECK _ _ _)
      (fun _ => inv_bind _ _ _ (inv_dcall _ _ _)
        (fun _ => inv_bind _ _ _ (inv_newMemory _ _)
          (fun _ => inv_bind _ _ _ (inv_modifyMemory _ _ _)
            (fun _ => inv_bind _ _ _ (inv_modifyDevice _ _ (fun _ h => hb _ _ h))
              (fun _ => inv_pure _ _))))))

theorem inv_manage (g : device_v → Prop) (env : Env) (mem : memory)
    (hu : ∀ d l, g d → g { d with uvaMap := l }) : Inv (Holds g) (manage env mem) := by
  unfold manage
  exact inv_bind _ _ _ (inv_getState _)
    (fun _ => inv_bind _ _ _ (inv_call _ _ _)
      (fun _ => inv_bind _ _ _ (inv_modifyMemory _ _ _)
        (fun _ => inv_modifyDevice _ _ (fun _ h => hu _ _ h))))

theorem inv_managedAlloc (g : device_v → Prop) (env : Env) (bytes : Int) (src : Ptr)
    (props : Props) (hb : ∀ d n, g d → g { d with bytesAllocated := n })
    (hu : ∀ d l, g d → g { d with uvaMap := l }) :
    Inv (Holds g) (managedAlloc env bytes src props) := by
  unfold managedAlloc
  exact inv_bind _ _ _ (inv_checkIfInitialized _)
    (fun _ => inv_bind _ _ _ (inv_OCCA_CHECK _ _ _)
      (fun _ => inv_bind _ _ _ (inv_malloc g env bytes src props hb)
        (fun _ => inv_bind _ _ _ (inv_manage g env _ hu)
          (fun _ => inv_bind _ _ _ (inv_getState _) (fun _ => inv_pure _ _)))))

theorem inv_setStream (g : device_v → Prop) (st : stream)
    (hc : ∀ d, g d → g { d with currentStream := st.handle }) :
    Inv (Holds g) (setStream st) := by
  unfold setStream
  exact inv_bind _ _ _ (inv_checkIfInitialized _)
    (fun _ => inv_modifyDevice _ _ (fun _ h => hc _ h))

/-- A request other than `setup`, `free` and `setStream` keeps a `NULL`
`currentStream` as it is. -/
theorem step_keeps_currentStream_null (env : Env) (op : Op)
    (hop : op.changesInstance = false) (hset : op.isSetStream = false) :
    Inv (Holds (fun d => d.currentStream = NULL)) (step env op) := by
  cases op <;> first
    | (simp [Op.changesInstance] at hop; done)
    | (simp [Op.isSetStream] at hset; done)
    | exact inv_map _ _ _ (inv_getHandle _ _ _)
    | exact inv_map _ _ _ (inv_getDHandle _)
    | exact inv_map _ _ _ (inv_properties _)
    | exact inv_map _ _ _ (inv_memorySize _ _)
    | exact inv_map _ _ _ (inv_memoryAllocated _)
    | exact inv_map _ _ _ (inv_hasUvaEnabled _)
    | exact inv_map _ _ _ (inv_mode _)
    | exact inv_map _ _ _ (inv_flush _)
    | exact inv_map _ _ _ (inv_finish _ _)
    | exact inv_map _ _ _ (inv_createStream _ _ (fun _ _ h => h))
    | exact inv_map _ _ _ (inv_freeStream _ _ (fun _ _ h => h) (fun _ _ => rfl))
    | exact inv_map _ _ _ (inv_getStream _)
    | exact inv_map _ _ _ (inv_wrapStream _ _ _)
    | exact inv_map _ _ _ (inv_tagStream _ _)
    | exact inv_map _ _ _ (inv_waitFor _ _)
    | exact inv_map _ _ _ (inv_timeBetween _ _ _ _)
    | exact inv_map _ _ _ (inv_buildKernel _ _ _ _ _)
    | exact inv_map _ _ _ (inv_buildKernelFromString _ _ _ _ _)
    | exact inv_map _ _ _ (inv_buildKernelFromBinary _ _ _ _)
    | exact inv_map _ _ _ (inv_malloc _ _ _ _ _ (fun _ _ h => h))
    | exact inv_map _ _ _ (inv_managedAlloc _ _ _ _ _ (fun _ _ h => h) (fun _ _ h => h))
    | exact inv_map _ _ _ (inv_wrapMemory _ _ _ _ _ (fun _ _ h => h))

/-! ## Streams -/

theorem runOps_keeps (g : device_v → Prop) (env : Env) :
    ∀ (ops : List Op) (s : State), (∀ op ∈ ops, Inv (Holds g) (step env op)) →
      Holds g s.dHandle → Holds g (runOps env ops s).dHandle := by
  intro ops
  induction ops with
  | nil => intro s _ h; exact h
  | cons op rest ih =>
    intro s hops h
    have h1 := (hops op (List.mem_cons_self _ _)).keep s h
    exact ih _ (fun o ho => hops o (List.mem_cons_of_mem _ ho)) h1

theorem getStream_of_null (s : State) (h : Holds (fun d => d.currentStream = NULL) s.dHandle) :
    (getStream s).1 = Except.ok { dHandle := DeviceRef.facade, handle := NULL } := by
  obtain ⟨d, hd, hcur⟩ := h
  simp [getStream, checkIfInitialized_some s d hd, deref, hd, hcur]

theorem freeStream_current_owned (s : State) (d : device_v) (st : stream)
    (hinit : s.dHandle = some d) (hcur : d.currentStream = st.handle)
    (howned : st.handle ∈ d.streams) :
    (freeStream st s).1 = Except.ok ()
    ∧ Holds (fun d1 => d1.currentStream = NULL) (freeStream st s).2.dHandle := by
  cases hidx : d.streams.indexOf? st.handle with
  | none =>
    rw [List.indexOf?_eq_none_iff] at hidx
    have := hidx st.handle howned
    simp at this
  | some i =>
    obtain ⟨dh, mems, cnt, dirty, vc, hs, tr⟩ := s
    simp only at hinit
    subst hinit
    simp [freeStream, checkIfInitialized, OCCA_CHECK, deref, hidx, hcur, modifyDevice, dcall,
      call, Holds]

theorem freeStream_unowned (s : State) (d : device_v) (st : stream)
    (hinit : s.dHandle = some d) (hunowned : st.handle ∉ d.streams) :
    freeStream st s = (Except.ok (), s) := by
  have hidx : d.streams.indexOf? st.handle = none := by
    rw [List.indexOf?_eq_none_iff]
    intro x hx
    by_cases hxe : x = st.handle
    · exact absurd (hxe ▸ hx) hunowned
    · simpa using hxe
  simp [freeStream, checkIfInitialized_some s d hinit, deref, hinit, hidx]

theorem map_state {α β : Type} (f : α → β) (m : M α) (s : State) :
    ((f <$> m) s).2 = (m s).2 := by
  rw [map_run]
  rcases m s with ⟨r, s1⟩
  cases r <;> rfl

theorem memoryAllocated_of_bytes (s : State) (n : Nat)
    (h : Holds (fun d => d.bytesAllocated = n) s.dHandle) :
    (memoryAllocated s).1 = Except.ok n := by
  obtain ⟨d, hd, hn⟩ := h
  simp [memoryAllocated, checkIfInitialized_some s d hd, deref, hd, hn]

/-! ## The same frame facts when collaborator calls throw -/

theorem inv_callUnder (P : Option device_v → Prop) {α : Type} (faults : Faults) (e : Event)
    (ret : List Event → α) : Inv P (callUnder faults e ret) := by
  constructor
  intro s hP
  unfold callUnder
  split <;> exact hP

theorem inv_dcallUnder (P : Option device_v → Prop) {α : Type} (faults : Faults) (e : Event)
    (ret : List Event → α) : Inv P (dcallUnder faults e ret) := by
  constructor
  intro s hP
  unfold dcallUnder
  split
  · exact (inv_callUnder P faults e ret).keep s hP
  · exact hP

theorem inv_getVerboseCompilation (P : Option device_v → Prop) : Inv P getVerboseCompilation :=
  ⟨fun _ h => h⟩

theorem inv_setVerboseCompilation (P : Option device_v → Prop) (b : Bool) :
    Inv P (setVerboseCompilation b) := ⟨fun _ h => h⟩

theorem inv_getHandleUnder (P : Option device_v → Prop) (faults : Faults) (env : Env)
    (props : Props) : Inv P (getHandleUnder faults env props) := inv_dcallUnder P _ _ _

theorem inv_memorySizeUnder (P : Option device_v → Prop) (faults : Faults) (env : Env) :
    Inv P (memorySizeUnder faults env) :=
  inv_bind _ _ _ (inv_checkIfInitialized _) (fun _ => inv_dcallUnder _ _ _ _)

theorem inv_flushUnder (P : Option device_v → Prop) (faults : Faults) :
    Inv P (flushUnder faults) :=
  inv_bind _ _ _ (inv_checkIfInitialized _) (fun _ => inv_dcallUnder _ _ _ _)

theorem inv_tagStreamUnder (P : Option device_v → Prop) (faults : Faults) (env : Env) :
    Inv P (tagStreamUnder faults env) :=
  inv_bind _ _ _ (inv_checkIfInitialized _) (fun _ => inv_dcallUnder _ _ _ _)

theorem inv_waitForUnder (P : Option device_v → Prop) (faults : Faults) (tag : streamTag) :
    Inv P (waitForUnder faults tag) :=
  inv_bind _ _ _ (inv_checkIfInitialized _) (fun _ => inv_dcallUnder _ _ _ _)

theorem inv_timeBetweenUnder (P : Option device_v → Prop) (faults : Faults) (env : Env)
    (a b : streamTag) : Inv P (timeBetweenUnder faults env a b) :=
  inv_bind _ _ _ (inv_checkIfInitialized _) (fun _ => inv_dcallUnder _ _ _ _)

theorem inv_wrapStreamUnder (P : Option device_v → Prop) (faults : Faults) (env : Env)
    (handle : Ptr) : Inv P (wrapStreamUnder faults env handle) :=
  inv_bind _ _ _ (inv_checkIfInitialized _)
    (fun _ => inv_bind _ _ _ (inv_dcallUnder _ _ _ _) (fun _ => inv_pure _ _))

theorem inv_buildKernelFromBinaryUnder (P : Option device_v → Prop) (faults : Faults)
    (env : Env) (filename functionName : String) :
    Inv P (buildKernelFromBinaryUnder faults env filename functionName) :=
  inv_bind _ _ _ (inv_checkIfInitialized _)
    (fun _ => inv_bind _ _ _ (inv_dcallUnder _ _ _ _) (fun _ => inv_pure _ _))

theorem inv_finishLoopUnder (P : Option device_v → Prop) (faults : Faults) (env : Env) :
    ∀ l : List MemRef, Inv P (finishLoopUnder faults env l) := by
  intro l
  induction l with
  | nil => exact inv_pure _ _
  | cons mem rest ih =>
    unfold finishLoopUnder
    exact inv_bind _ _ _ (inv_getState _)
      (fun _ => inv_bind _ _ _ (inv_callUnder _ _ _ _)
        (fun _ => inv_bind _ _ _ (inv_modifyMemory _ _ _)
          (fun _ => inv_bind _ _ _ (inv_modifyMemory _ _ _) (fun _ => ih))))

theorem inv_finishUnder (P : Option device_v → Prop) (faults : Faults) (env : Env) :
    Inv P (finishUnder faults env) := by
  unfold finishUnder
  repeat' first
    | exact inv_pure _ _
    | exact inv_checkIfInitialized _
    | exact inv_getState _
    | exact inv_dcallUnder _ _ _ _
    | exact inv_clearDirtyMemory _
    | exact inv_finishLoopUnder _ _ _ _
    | apply inv_bind
    | apply inv_ite
    | intro _

theorem inv_buildNestedKernelsUnder (P : Option device_v → Prop) (faults : Faults) (env : Env)
    (parsedFile : String) (allProps : Props) (metadata : kernelMetadata) :
    ∀ (l : List Nat) (acc : List kernel_v),
      Inv P (buildNestedKernelsUnder faults env parsedFile allProps metadata l acc) := by
  intro l
  induction l with
  | nil => intro acc; exact inv_pure _ _
  | cons ki rest ih =>
    intro acc
    unfold buildNestedKernelsUnder
    repeat' first
      | exact inv_pure _ _
      | exact inv_dcallUnder _ _ _ _
      | exact inv_setVerboseCompilation _ _
      | exact ih _
      | apply inv_bind
      | apply inv_ite
      | intro _

theorem inv_buildKernelUnder (P : Option device_v → Prop) (faults : Faults) (env : Env)
    (filename functionName : String) (props : Props) :
    Inv P (buildKernelUnder faults env filename functionName props) := by
  unfold buildKernelUnder newModeDeviceUnder
  repeat' first
    | exact inv_pure _ _
    | exact inv_checkIfInitialized _
    | exact inv_properties _
    | exact inv_mode _
    | exact inv_callUnder _ _ _ _
    | exact inv_dcallUnder _ _ _ _
    | exact inv_getVerboseCompilation _
    | exact inv_setVerboseCompilation _ _
    | exact inv_buildNestedKernelsUnder _ _ _ _ _ _ _ _
    | apply inv_bind
    | apply inv_ite
    | intro _

theorem inv_buildKernelFromStringUnder (P : Option device_v → Prop) (faults : Faults)
    (env : Env) (content functionName : String) (props : Props) :
    Inv P (buildKernelFromStringUnder faults env content functionName props) := by
  unfold buildKernelFromStringUnder
  repeat' first
    | exact inv_pure _ _
    | exact inv_checkIfInitialized _
    | exact inv_properties _
    | exact inv_callUnder _ _ _ _
    | exact inv_haveHash _ _ _
    | exact inv_waitForHash _ _ _ _
    | exact inv_releaseHash _ _ _
    | exact inv_buildKernelUnder _ _ _ _ _ _
    | exact inv_buildKernelFromBinaryUnder _ _ _ _ _
    | apply inv_bind
    | apply inv_ite
    | intro _

theorem inv_createStreamUnder (g : device_v → Prop) (faults : Faults) (env : Env)
    (hs : ∀ d l, g d → g { d with streams := l }) :
    Inv (Holds g) (createStreamUnder faults env) := by
  unfold createStreamUnder
  exact inv_bind _ _ _ (inv_checkIfInitialized _)
    (fun _ => inv_bind _ _ _ (inv_dcallUnder _ _ _ _)
      (fun _ => inv_bind _ _ _ (inv_modifyDevice _ _ (fun _ h => hs _ _ h))
        (fun _ => inv_pure _ _)))

theorem inv_freeStreamUnder (g : device_v → Prop) (faults : Faults) (st : stream)
    (hs : ∀ d l, g d → g { d with streams := l })
    (hc : ∀ d, g d → g { d with currentStream := NULL }) :
    Inv (Holds g) (freeStreamUnder faults st) := by
  unfold freeStreamUnder
  apply inv_bind _ _ _ (inv_checkIfInitialized _)
  intro _
  apply inv_bind _ _ _ (inv_deref _)
  intro d
  dsimp only
  split
  · exact inv_pure _ _
  · apply inv_ite
    · exact inv_bind _ _ _ (inv_modifyDevice _ _ (fun _ h => hc _ h))
        (fun _ => inv_bind _ _ _ (inv_dcallUnder _ _ _ _)
          (fun _ => inv_modifyDevice _ _ (fun _ h => hs _ _ h)))
    · exact inv_bind _ _ _ (inv_pure _ _)
        (fun _ => inv_bind _ _ _ (inv_dcallUnder _ _ _ _)
          (fun _ => inv_modifyDevice _ _ (fun _ h => hs _ _ h)))

/-- A request other than `setup`, `free` and the three allocation requests
keeps `bytesAllocated` as it is, whether it returns or a collaborator call
throws. -/
theorem stepUnder_keeps_bytesAllocated (faults : Faults) (env : Env) (op : Op) (n : Nat)
    (hop : op.changesInstance = false) (halloc : op.isAllocation = false) :
    Inv (Holds (fun d => d.bytesAllocated = n)) (stepUnder faults env op) := by
  cases op <;> first
    | (simp [Op.changesInstance] at hop; done)
    | (simp [Op.isAllocation] at halloc; done)
    | exact inv_map _ _ _ (inv_getHandleUnder _ _ _ _)
    | exact inv_map _ _ _ (inv_getDHandle _)
    | exact inv_map _ _ _ (inv_properties _)
    | exact inv_map _ _ _ (inv_memorySizeUnder _ _ _)
    | exact inv_map _ _ _ (inv_memoryAllocated _)
    | exact inv_map _ _ _ (inv_hasUvaEnabled _)
    | exact inv_map _ _ _ (inv_mode _)
    | exact inv_map _ _ _ (inv_flushUnder _ _)
    | exact inv_map _ _ _ (inv_finishUnder _ _ _)
    | exact inv_map _ _ _ (inv_createStreamUnder _ _ _ (fun _ _ h => h))
    | exact inv_map _ _ _ (inv_freeStreamUnder _ _ _ (fun _ _ h => h) (fun _ h => h))
    | exact inv_map _ _ _ (inv_getStream _)
    | exact inv_map _ _ _ (inv_setStream _ _ (fun _ h => h))
    | exact inv_map _ _ _ (inv_wrapStreamUnder _ _ _ _)
    | exact inv_map _ _ _ (inv_tagStreamUnder _ _ _)
    | exact inv_map _ _ _ (inv_waitForUnder _ _ _)
    | exact inv_map _ _ _ (inv_timeBetweenUnder _ _ _ _ _)
    | exact inv_map _ _ _ (inv_buildKernelUnder _ _ _ _ _ _)
    | exact inv_map _ _ _ (inv_buildKernelFromStringUnder _ _ _ _ _ _)
    | exact inv_map _ _ _ (inv_buildKernelFromBinaryUnder _ _ _ _ _)

theorem map_isOk {α β : Type} (f : α → β) (m : M α) (s : State) :
    ((f <$> m) s).1.isOk = (m s).1.isOk := by
  rw [map_run]
  rcases m s with ⟨r, s1⟩
  cases r <;> rfl

theorem mallocUnder_effect (faults : Faults) (env : Env) (s : State) (d : device_v)
    (bytes : Int) (p : Ptr) (props : Props) (hinit : s.dHandle = some d) :
    Holds (fun d1 => d1.bytesAllocated
        = if (mallocUnder faults env bytes p props s).1.isOk
          then (d.bytesAllocated + bytes.toNat) % 2 ^ env.udimBits else d.bytesAllocated)
      (mallocUnder faults env bytes p props s).2.dHandle := by
  obtain ⟨dh, mems, cnt, dirty, vc, hs, tr⟩ := s
  simp only at hinit
  subst hinit
  by_cases hpos : 0 ≤ bytes
  · by_cases hthrow : faults.throws tr (Event.malloc bytes p props) = true
    · simp [Holds, mallocUnder, checkIfInitialized, OCCA_CHECK, hpos, dcallUnder, callUnder,
        hthrow, Except.isOk, Except.toBool]
    · simp [Holds, mallocUnder, checkIfInitialized, OCCA_CHECK, hpos, dcallUnder, callUnder,
        hthrow, call, newMemory, modifyMemory, modifyDevice, Except.isOk, Except.toBool]
  · simp [Holds, mallocUnder, checkIfInitialized, OCCA_CHECK, hpos, Except.isOk,
      Except.toBool]

theorem wrapMemoryUnder_effect (faults : Faults) (env : Env) (s : State) (d : device_v)
    (bytes : Int) (p : Ptr) (props : Props) (hinit : s.dHandle = some d) :
    Holds (fun d1 => d1.bytesAllocated
        = if (wrapMemoryUnder faults env p bytes props s).1.isOk
          then (d.bytesAllocated + bytes.toNat) % 2 ^ env.udimBits else d.bytesAllocated)
      (wrapMemoryUnder faults env p bytes props s).2.dHandle := by
  obtain ⟨dh, mems, cnt, dirty, vc, hs, tr⟩ := s
  simp only at hinit
  subst hinit
  by_cases hpos : 0 ≤ bytes
  · by_cases hthrow : faults.throws tr (Event.wrapMemory p bytes props) = true
    · simp [Holds, wrapMemoryUnder, checkIfInitialized, OCCA_CHECK, hpos, dcallUnder,
        callUnder, hthrow, Except.isOk, Except.toBool]
    · simp [Holds, wrapMemoryUnder, checkIfInitialized, OCCA_CHECK, hpos, dcallUnder,
        callUnder, hthrow, call, newMemory, modifyMemory, modifyDevice, Except.isOk,
        Except.toBool]
  · simp [Holds, wrapMemoryUnder, checkIfInitialized, OCCA_CHECK, hpos, Except.isOk,
      Except.toBool]

theorem managedAllocUnder_effect (faults : Faults) (env : Env) (s : State) (d : device_v)
    (bytes : Int) (p : Ptr) (props : Props) (hinit : s.dHandle = some d) :
    Holds (fun d1 => d1.bytesAllocated
        = if (managedAllocUnder faults env bytes p props s).1.isOk
          then (d.bytesAllocated + bytes.toNat) % 2 ^ env.udimBits else d.bytesAllocated)
      (managedAllocUnder faults env bytes p props s).2.dHandle := by
  obtain ⟨dh, mems, cnt, dirty, vc, hs, tr⟩ := s
  simp only at hinit
  subst hinit
  by_cases hpos : 0 ≤ bytes
  · by_cases hthrow : faults.throws tr (Event.malloc bytes p props) = true
    · simp [Holds, managedAllocUnder, mallocUnder, checkIfInitialized, OCCA_CHECK, hpos,
        dcallUnder, callUnder, hthrow, Except.isOk, Except.toBool]
    · simp [Holds, managedAllocUnder, mallocUnder, manage, checkIfInitialized, OCCA_CHECK, hpos,
        dcallUnder, callUnder, hthrow, call, newMemory, modifyMemory, modifyDevice, getState,
        Except.isOk, Except.toBool]
  · simp [Holds, managedAllocUnder, checkIfInitialized, OCCA_CHECK, hpos, Except.isOk,
      Except.toBool]

theorem stepUnder_adds_succeeded (faults : Faults) (env : Env) (op : Op) (s : State)
    (d : device_v) (hinit : s.dHandle = some d) (hop : op.changesInstance = false)
    (hfit : d.bytesAllocated
      + (if (stepUnder faults env op s).1.isOk then op.bytesRequested else 0)
        < 2 ^ env.udimBits) :
    Holds (fun d1 => d1.bytesAllocated = d.bytesAllocated
        + (if (stepUnder faults env op s).1.isOk then op.bytesRequested else 0))
      (stepUnder faults env op s).2.dHandle := by
  cases halloc : op.isAllocation with
  | false =>
    have hzero : op.bytesRequested = 0 := by
      cases op <;> first | rfl | simp [Op.isAllocation] at halloc
    simp only [hzero, ite_self, Nat.add_zero]
    exact (stepUnder_keeps_bytesAllocated faults env op d.bytesAllocated hop halloc).keep s
      ⟨d, hinit, rfl⟩
  | true =>
    cases op <;> first
      | (simp [Op.isAllocation] at halloc; done)
      | skip
    case malloc bytes p props =>
      simp only [stepUnder, map_state, map_isOk, Op.bytesRequested] at hfit ⊢
      obtain ⟨d1, hd1, hb1⟩ := mallocUnder_effect faults env s d bytes p props hinit
      refine ⟨d1, hd1, ?_⟩
      show d1.bytesAllocated = _
      rw [hb1]
      split
      · rename_i hok
        simp only [hok, if_true] at hfit
        exact Nat.mod_eq_of_lt hfit
      · rfl
    case managedAlloc bytes p props =>
      simp only [stepUnder, map_state, map_isOk, Op.bytesRequested] at hfit ⊢
      obtain ⟨d1, hd1, hb1⟩ := managedAllocUnder_effect faults env s d bytes p props hinit
      refine ⟨d1, hd1, ?_⟩
      show d1.bytesAllocated = _
      rw [hb1]
      split
      · rename_i hok
        simp only [hok, if_true] at hfit
        exact Nat.mod_eq_of_lt hfit
      · rfl
    case wrapMemory p bytes props =>
      simp only [stepUnder, map_state, map_isOk, Op.bytesRequested] at hfit ⊢
      obtain ⟨d1, hd1, hb1⟩ := wrapMemoryUnder_effect faults env s d bytes p props hinit
      refine ⟨d1, hd1, ?_⟩
      show d1.bytesAllocated = _
      rw [hb1]
      split
      · rename_i hok
        simp only [hok, if_true] at hfit
        exact Nat.mod_eq_of_lt hfit
      · rfl

theorem runOpsUnder_adds_succeeded (faults : Faults) (env : Env) :
    ∀ (ops : List Op) (s : State) (d : device_v), s.dHandle = some d →
      (∀ op ∈ ops, op.changesInstance = false) →
      d.bytesAllocated + succeededBytes faults env ops s < 2 ^ env.udimBits →
      Holds (fun d1 => d1.bytesAllocated = d.bytesAllocated + succeededBytes faults env ops s)
        (runOpsUnder faults env ops s).dHandle := by
  intro ops
  induction ops with
  | nil => intro s d hinit _ _; exact ⟨d, hinit, by simp [succeededBytes]⟩
  | cons op rest ih =>
    intro s d hinit hops hfit
    simp only [succeededBytes] at hfit ⊢
    obtain ⟨d1, hd1, hb1⟩ := stepUnder_adds_succeeded faults env op s d hinit
      (hops op (List.mem_cons_self _ _)) (by omega)
    obtain ⟨d2, hd2, hb2⟩ := ih (stepUnder faults env op s).2 d1 hd1
      (fun o ho => hops o (List.mem_cons_of_mem _ ho)) (by omega)
    exact ⟨d2, hd2, by omega⟩

theorem succeededBytes_take_le_succ (faults : Faults) (env : Env) :
    ∀ (ops : List Op) (s : State) (k : Nat),
      succeededBytes faults env (ops.take k) s
        ≤ succeededBytes faults env (ops.take (k + 1)) s := by
  intro ops
  induction ops with
  | nil => intro s k; simp [succeededBytes]
  | cons op rest ih =>
    intro s k
    cases k with
    | zero => simp [succeededBytes]
    | succ k =>
      simp only [List.take_succ_cons, succeededBytes]
      have := ih (stepUnder faults env op s).2 k
      omega

theorem succeededBytes_take_le (faults : Faults) (env : Env) :
    ∀ (ops : List Op) (s : State) (k : Nat),
      succeededBytes faults env (ops.take k) s ≤ succeededBytes faults env ops s := by
  intro ops
  induction ops with
  | nil => intro s k; simp [succeededBytes]
  | cons op rest ih =>
    intro s k
    cases k with
    | zero => simp [succeededBytes]
    | succ k =>
      simp only [List.take_succ_cons, succeededBytes]
      have := ih (stepUnder faults env op s).2 k
      omega

/-- C8 (the code at the failing input): for the options
`mode = Serial, uva = enabled` the constructor `device_v(options)` derives
the flag `true`, `setup(options)` succeeds, and `hasUvaEnabled()` then
returns `false`, because `setup` overwrites the flag with the comparison
against `"ENABLED"`. -/
theorem setup_overwrites_uva_flag :
    (device_v.new [("mode", "Serial"), ("uva", "enabled")]).hasUvaEnabled = true
    ∧ ((setup demoEnv [("mode", "Serial"), ("uva", "enabled")] uninitialized).1.toOption).isSome
        = true
    ∧ (hasUvaEnabled
        (setup demoEnv [("mode", "Serial"), ("uva", "enabled")] uninitialized).2).1.toOption
        = some false := by
  decide

/-! ## `buildKernelFromString` when collaborator calls throw -/

theorem records_pure (Q : Event → Prop) {α : Type} (a : α) : Records Q (pure a : M α) :=
  ⟨fun s => ⟨rfl, [], by simp, by simp⟩⟩

theorem records_bind (Q : Event → Prop) {α β : Type} (m : M α) (f : α → M β)
    (hm : Records Q m) (hf : ∀ a, Records Q (f a)) : Records Q (m >>= f) := by
  constructor
  intro s
  obtain ⟨h1, l1, ht1, hq1⟩ := hm.keep s
  rw [bind_run]
  rcases hms : m s with ⟨r, s1⟩
  rw [hms] at h1 ht1
  cases r with
  | error e => exact ⟨h1, l1, ht1, hq1⟩
  | ok a =>
    obtain ⟨h2, l2, ht2, hq2⟩ := (hf a).keep s1
    refine ⟨h2.trans h1, l1 ++ l2, ?_, ?_⟩
    · show (f a s1).2.trace = _
      rw [ht2]
      simp only at ht1
      rw [ht1, List.append_assoc]
    · intro e he
      rcases List.mem_append.mp he with h | h
      · exact hq1 e h
      · exact hq2 e h

theorem records_ite (Q : Event → Prop) {α : Type} (c : Prop) [Decidable c]
    (m1 m2 : M α) (h1 : Records Q m1) (h2 : Records Q m2) :
    Records Q (if c then m1 else m2) := by
  split
  · exact h1
  · exact h2

theorem records_same (Q : Event → Prop) {α : Type} (m : M α)
    (h : ∀ s, (m s).2 = s) : Records Q m :=
  ⟨fun s => by rw [h s]; exact ⟨rfl, [], by simp, by simp⟩⟩

theorem records_OCCA_CHECK (Q : Event → Prop) (c : Bool) (msg : String) :
    Records Q (OCCA_CHECK c msg) := by
  apply records_same
  intro s
  unfold OCCA_CHECK
  split <;> rfl

theorem records_checkIfInitialized (Q : Event → Prop) : Records Q checkIfInitialized :=
  ⟨fun s => (records_OCCA_CHECK Q _ _).keep s⟩

theorem records_deref (Q : Event → Prop) : Records Q deref := by
  apply records_same
  intro s
  unfold deref
  split <;> rfl

theorem records_properties (Q : Event → Prop) : Records Q properties :=
  records_bind _ _ _ (records_checkIfInitialized _)
    (fun _ => records_bind _ _ _ (records_deref _) (fun _ => records_pure _ _))

theorem records_mode (Q : Event → Prop) : Records Q mode :=
  records_bind _ _ _ (records_checkIfInitialized _)
    (fun _ => records_bind _ _ _ (records_deref _) (fun _ => records_pure _ _))

theorem records_getVerboseCompilation (Q : Event → Prop) : Records Q getVerboseCompilation :=
  records_same _ _ (fun _ => rfl)

theorem records_setVerboseCompilation (Q : Event → Prop) (b : Bool) :
    Records Q (setVerboseCompilation b) :=
  ⟨fun s => ⟨rfl, [], by simp [setVerboseCompilation], by simp⟩⟩

theorem records_callUnder (Q : Event → Prop) {α : Type} (faults : Faults) (e : Event)
    (ret : List Event → α) (hq : Q e) : Records Q (callUnder faults e ret) := by
  constructor
  intro s
  unfold callUnder
  split
  · exact ⟨rfl, [e], rfl, by simpa using hq⟩
  · exact ⟨rfl, [e], rfl, by simpa using hq⟩

theorem records_dcallUnder (Q : Event → Prop) {α : Type} (faults : Faults) (e : Event)
    (ret : List Event → α) (hq : Q e) : Records Q (dcallUnder faults e ret) := by
  constructor
  intro s
  unfold dcallUnder
  split
  · exact (records_callUnder Q faults e ret hq).keep s
  · exact ⟨rfl, [], by simp, by simp⟩

theorem records_buildNestedKernelsUnder (faults : Faults) (env : Env) (parsedFile : String)
    (allProps : Props) (metadata : kernelMetadata) :
    ∀ (l : List Nat) (acc : List kernel_v),
      Records (fun e => e.isBuildStep = true)
        (buildNestedKernelsUnder faults env parsedFile allProps metadata l acc) := by
  intro l
  induction l with
  | nil => intro acc; exact records_pure _ _
  | cons ki rest ih =>
    intro acc
    unfold buildNestedKernelsUnder
    repeat' first
      | exact records_pure _ _
      | exact records_dcallUnder _ _ _ _ rfl
      | exact records_setVerboseCompilation _ _
      | exact ih _
      | apply records_bind
      | apply records_ite
      | intro _

theorem records_buildKernelUnder (faults : Faults) (env : Env)
    (filename functionName : String) (props : Props) :
    Records (fun e => e.isBuildStep = true)
      (buildKernelUnder faults env filename functionName props) := by
  unfold buildKernelUnder newModeDeviceUnder
  repeat' first
    | exact records_pure _ _
    | exact records_checkIfInitialized _
    | exact records_properties _
    | exact records_mode _
    | exact records_callUnder _ _ _ _ rfl
    | exact records_dcallUnder _ _ _ _ rfl
    | exact records_getVerboseCompilation _
    | exact records_setVerboseCompilation _ _
    | exact records_buildNestedKernelsUnder _ _ _ _ _ _ _
    | apply records_bind
    | apply records_ite
    | intro _


theorem buildKernelFromStringUnder_follower (faults : Faults) (env : Env) (s : State)
    (d : device_v) (content functionName : String) (props allProps : Props) (key : hash_t)
    (hinit : s.dHandle = some d)
    (hprops : allProps = env.propsAdd d.properties props)
    (hkey : key = env.hashXor (env.hashString content) (env.propsHash allProps))
    (hheld : s.hashes key "occa-device" = HashStatus.complete
      ∨ (s.hashes key "occa-device" = HashStatus.claimed false
          ∧ env.ownerReleases key "occa-device" = true)) :
    (buildKernelFromStringUnder faults env content functionName props s).1
        = (if faults.throws
              (s.trace ++ [Event.haveHash key "occa-device", Event.waitForHash key "occa-device"])
              (Event.buildKernelFromBinary (env.hashDir key ++ env.binaryFile) functionName)
          then Except.error (Failure.thrown
            (Event.buildKernelFromBinary (env.hashDir key ++ env.binaryFile) functionName))
          else Except.ok
            { kHandle :=
              { env.buildKernelFromBinary (env.hashDir key ++ env.binaryFile) functionName with
                dHandle := DeviceRef.facade } })
    ∧ (buildKernelFromStringUnder faults env content functionName props s).2.trace
        = s.trace ++
          [ Event.haveHash key "occa-device",
            Event.waitForHash key "occa-device",
            Event.buildKernelFromBinary (env.hashDir key ++ env.binaryFile) functionName ]
    ∧ (buildKernelFromStringUnder faults env content functionName props s).2.hashes key
        "occa-device" = HashStatus.complete := by
  subst hprops
  subst hkey
  obtain ⟨dh, mems, cnt, dirty, vc, hs, tr⟩ := s
  simp only at hinit
  subst hinit
  simp only at hheld
  by_cases hthrow : faults.throws
      (tr ++ [Event.haveHash (env.hashXor (env.hashString content)
          (env.propsHash (env.propsAdd d.properties props))) "occa-device",
        Event.waitForHash (env.hashXor (env.hashString content)
          (env.propsHash (env.propsAdd d.properties props))) "occa-device"])
      (Event.buildKernelFromBinary
        (env.hashDir (env.hashXor (env.hashString content)
          (env.propsHash (env.propsAdd d.properties props))) ++ env.binaryFile)
        functionName) = true
  · rcases hheld with hc | ⟨hc, hr⟩
    · simp [buildKernelFromStringUnder, checkIfInitialized, OCCA_CHECK, properties, deref,
        haveHash, waitForHash, completeEntry, hc, buildKernelFromBinaryUnder, dcallUnder, callUnder, hthrow]
    · simp [buildKernelFromStringUnder, checkIfInitialized, OCCA_CHECK, properties, deref,
        haveHash, waitForHash, completeEntry, hc, hr, buildKernelFromBinaryUnder, dcallUnder, callUnder,
        hthrow]
  · rcases hheld with hc | ⟨hc, hr⟩
    · simp [buildKernelFromStringUnder, checkIfInitialized, OCCA_CHECK, properties, deref,
        haveHash, waitForHash, completeEntry, hc, buildKernelFromBinaryUnder, dcallUnder, callUnder, hthrow,
        call]
    · simp [buildKernelFromStringUnder, checkIfInitialized, OCCA_CHECK, properties, deref,
        haveHash, waitForHash, completeEntry, hc, hr, buildKernelFromBinaryUnder, dcallUnder, callUnder,
        hthrow, call]

theorem buildKernelFromStringUnder_blocked (faults : Faults) (env : Env) (s : State)
    (d : device_v) (content functionName : String) (props allProps : Props) (key : hash_t)
    (hinit : s.dHandle = some d)
    (hprops : allProps = env.propsAdd d.properties props)
    (hkey : key = env.hashXor (env.hashString content) (env.propsHash allProps))
    (hheld : s.hashes key "occa-device" = HashStatus.claimed true
      ∨ (s.hashes key "occa-device" = HashStatus.claimed false
          ∧ env.ownerReleases key "occa-device" = false)) :
    buildKernelFromStringUnder faults env content functionName props s
      = (Except.error Failure.neverReturns,
          { s with
            trace := s.trace ++
              [Event.haveHash key "occa-device", Event.waitForHash key "occa-device"] }) := by
  subst hprops
  subst hkey
  obtain ⟨dh, mems, cnt, dirty, vc, hs, tr⟩ := s
  simp only at hinit
  subst hinit
  simp only at hheld
  rcases hheld with hc | ⟨hc, hr⟩
  · simp [buildKernelFromStringUnder, checkIfInitialized, OCCA_CHECK, properties, deref,
      haveHash, waitForHash, hc]
  · simp [buildKernelFromStringUnder, checkIfInitialized, OCCA_CHECK, properties, deref,
      haveHash, waitForHash, hc, hr]

theorem buildKernelFromStringUnder_leader (faults : Faults) (env : Env) (s : State)
    (d : device_v) (content functionName sourceFile : String) (props allProps : Props)
    (key : hash_t)
    (hinit : s.dHandle = some d)
    (hprops : allProps = env.propsAdd d.properties props)
    (hkey : key = env.hashXor (env.hashString content) (env.propsHash allProps))
    (hsource : sourceFile
      = if allProps.getD "language" "OKL" = "OCCA" then env.hashDir key ++ "stringSource.occa"
        else if allProps.getD "language" "OKL" = "OFL" then env.hashDir key ++ "stringSource.ofl"
        else env.hashDir key ++ "stringSource.okl")
    (hfree : s.hashes key "occa-device" = HashStatus.unclaimed) :
    buildKernelFromStringUnder faults env content functionName props s
      = if faults.throws (s.trace ++ [Event.haveHash key "occa-device"])
            (Event.write sourceFile content) then
          (Except.error (Failure.thrown (Event.write sourceFile content)),
            leaderState s key sourceFile content)
        else
          match buildKernelUnder faults env sourceFile functionName allProps
              (leaderState s key sourceFile content) with
          | (Except.ok ker, s2) =>
            (Except.ok ker,
              { s2 with
                hashes := Function.update s2.hashes key
                  (Function.update (s2.hashes key) "occa-device" HashStatus.complete)
                trace := s2.trace ++ [Event.releaseHash key "occa-device"] })
          | (Except.error e, s2) => (Except.error e, s2) := by
  subst hprops
  have hpath : stringSourceFile (env.hashDir key)
      ((env.propsAdd d.properties props).getD "language" "OKL") = sourceFile := by
    rw [hsource]
    rfl
  obtain ⟨dh, mems, cnt, dirty, vc, hs, tr⟩ := s
  simp only at hinit
  subst hinit
  simp only at hfree
  by_cases hthrow : faults.throws (tr ++ [Event.haveHash key "occa-device"])
      (Event.write sourceFile content) = true
  · simp [buildKernelFromStringUnder, checkIfInitialized, OCCA_CHECK, properties, deref,
      haveHash, ← hkey, hpath, hfree, callUnder, hthrow, leaderState]
  · simp only [buildKernelFromStringUnder, bind_run, checkIfInitialized, OCCA_CHECK, properties,
      deref, haveHash, ← hkey, hpath, hfree, releaseHash, completeEntry, callUnder, hthrow, call,
      leaderState,
      Option.isSome_some, if_true, pure_run, Bool.not_true, Bool.false_eq_true, if_false,
      List.append_assoc, List.singleton_append]
    split <;> rename_i h1 <;> split <;> rename_i h2 <;> simp_all

theorem releaseHash_count_of_buildSteps (l : List Event) (hash : hash_t) (tag : String)
    (h : ∀ e ∈ l, e.isBuildStep = true) : l.count (Event.releaseHash hash tag) = 0 := by
  rw [List.count_eq_zero]
  intro hmem
  have := h _ hmem
  simp [Event.isBuildStep] at this

theorem buildKernelFromStringUnder_leader_spec (faults : Faults) (env : Env) (s : State)
    (d : device_v) (content functionName sourceFile : String) (props allProps : Props)
    (key : hash_t)
    (hinit : s.dHandle = some d)
    (hprops : allProps = env.propsAdd d.properties props)
    (hkey : key = env.hashXor (env.hashString content) (env.propsHash allProps))
    (hsource : sourceFile
      = if allProps.getD "language" "OKL" = "OCCA" then env.hashDir key ++ "stringSource.occa"
        else if allProps.getD "language" "OKL" = "OFL" then env.hashDir key ++ "stringSource.ofl"
        else env.hashDir key ++ "stringSource.okl")
    (hfree : s.hashes key "occa-device" = HashStatus.unclaimed)
    (hwrite : faults.throws (s.trace ++ [Event.haveHash key "occa-device"])
      (Event.write sourceFile content) = false) :
    (buildKernelFromStringUnder faults env content functionName props s).1
        = (buildKernelUnder faults env sourceFile functionName allProps
            (leaderState s key sourceFile content)).1
    ∧ (∀ e ∈ callsSince (leaderState s key sourceFile content)
          (buildKernelUnder faults env sourceFile functionName allProps
            (leaderState s key sourceFile content)).2, e.isBuildStep = true)
    ∧ ((buildKernelUnder faults env sourceFile functionName allProps
          (leaderState s key sourceFile content)).1.isOk = true →
        (buildKernelFromStringUnder faults env content functionName props s).2.trace
          = s.trace ++ ([Event.haveHash key "occa-device", Event.write sourceFile content]
              ++ callsSince (leaderState s key sourceFile content)
                  (buildKernelUnder faults env sourceFile functionName allProps
                    (leaderState s key sourceFile content)).2
              ++ [Event.releaseHash key "occa-device"])
        ∧ (buildKernelFromStringUnder faults env content functionName props s).2.hashes key
            "occa-device" = HashStatus.complete)
    ∧ ((buildKernelUnder faults env sourceFile functionName allProps
          (leaderState s key sourceFile content)).1.isOk = false →
        (buildKernelFromStringUnder faults env content functionName props s).2.trace
          = s.trace ++ ([Event.haveHash key "occa-device", Event.write sourceFile content]
              ++ callsSince (leaderState s key sourceFile content)
                  (buildKernelUnder faults env sourceFile functionName allProps
                    (leaderState s key sourceFile content)).2)
        ∧ (buildKernelFromStringUnder faults env content functionName props s).2.hashes key
            "occa-device" = HashStatus.claimed true) := by
  obtain ⟨hh1, l, ht, hq⟩ := (records_buildKernelUnder faults env sourceFile functionName
    allProps).keep (leaderState s key sourceFile content)
  have hcs := callsSince_append _ _ _ ht
  rw [buildKernelFromStringUnder_leader faults env s d content functionName sourceFile props
    allProps key hinit hprops hkey hsource hfree]
  have hw : ¬ (faults.throws (s.trace ++ [Event.haveHash key "occa-device"])
      (Event.write sourceFile content) = true) := by simp [hwrite]
  rw [if_neg hw, hcs]
  generalize buildKernelUnder faults env sourceFile functionName allProps
    (leaderState s key sourceFile content) = res at hh1 ht hcs ⊢
  obtain ⟨r, s2⟩ := res
  simp only at hh1 ht
  cases r with
  | ok ker =>
    refine ⟨rfl, hq, fun _ => ⟨?_, ?_⟩, fun h => ?_⟩
    · simp [ht, leaderState]
    · simp
    · simp [Except.isOk, Except.toBool] at h
  | error e =>
    refine ⟨rfl, hq, fun h => ?_, fun _ => ⟨?_, ?_⟩⟩
    · simp [Except.isOk, Except.toBool] at h
    · simp [ht, leaderState]
    · simp [hh1, leaderState]

/-- C9 (as stated, refuted): with the Serial pre-pass build throwing,
`buildKernelFromString` claims the key, writes the source and starts
`buildKernel`, which fails; the failure is passed on and `releaseHash` is
never called, so the key stays claimed. A second call with the same content
and options then waits for a release that never comes. -/
theorem buildKernelFromString_failed_build_keeps_claim :
    (buildKernelFromStringUnder prepassThrows demoEnv "src" "scale" [] initialized).1.isOk
        = false
    ∧ callsSince initialized
        (buildKernelFromStringUnder prepassThrows demoEnv "src" "scale" [] initialized).2
        = [ Event.haveHash 2 "occa-device",
            Event.write "cache/stringSource.okl" "src",
            Event.newModeKernel serialProps,
            Event.newModeDevice serialProps,
            Event.parseFileForFunction "Serial" "cache/stringSource.okl"
              "cache/parsedSource.occa" "scale" [("mode", "Serial")],
            Event.kernelBuild "cache/parsedSource.occa" "scale"
              [("OCCA_LAUNCH_KERNEL", "1"), ("mode", "Serial"), ("mode", "Serial")] ]
    ∧ (callsSince initialized
        (buildKernelFromStringUnder prepassThrows demoEnv "src" "scale" [] initialized).2).count
          (Event.releaseHash 2 "occa-device") = 0
    ∧ (buildKernelFromStringUnder prepassThrows demoEnv "src" "scale" [] initialized).2.hashes 2
        "occa-device" = HashStatus.claimed true
    ∧ (buildKernelFromStringUnder prepassThrows demoEnv "src" "scale" []
        (buildKernelFromStringUnder prepassThrows demoEnv "src" "scale" [] initialized).2).1.isOk
        = false := by
  decide

/-- C9 (amended): `buildKernelFromString` on an initialized device, with the
key `hash(content) ^ hash(device properties + options)` under the tag
`occa-device`, any collaborator call being able to throw.
When the key is complete, or owned by another builder that releases it, the
call makes exactly `haveHash`, `waitForHash` and `buildKernelFromBinary` on
the cached binary, in that order, and returns what the last one returns.
When the key is claimed and never released the call never returns.
When the key is unclaimed the call claims it and writes the content to
`stringSource.occa`, `.ofl` or `.okl` (by the language) in the key's cache
directory; if the write throws nothing else happens. Otherwise it runs
`buildKernel` on that file once; if that returns, `releaseHash` is called
once and the key is complete; if it fails, the failure is passed on,
`releaseHash` is not called and the key stays claimed.
A second identical call after one that returned makes exactly the three
follower calls, none of which translates or compiles. -/
theorem buildKernelFromString_protocol (faults : Faults) (env : Env) (s : State)
    (d : device_v) (content functionName sourceFile binaryFile : String)
    (props allProps : Props) (key : hash_t)
    (first build second : Except Failure kernel × State)
    (hinit : s.dHandle = some d)
    (hprops : allProps = env.propsAdd d.properties props)
    (hkey : key = env.hashXor (env.hashString content) (env.propsHash allProps))
    (hsource : sourceFile
      = if allProps.getD "language" "OKL" = "OCCA" then env.hashDir key ++ "stringSource.occa"
        else if allProps.getD "language" "OKL" = "OFL" then env.hashDir key ++ "stringSource.ofl"
        else env.hashDir key ++ "stringSource.okl")
    (hbinary : binaryFile = env.hashDir key ++ env.binaryFile)
    (hfirst : first = buildKernelFromStringUnder faults env content functionName props s)
    (hbuild : build = buildKernelUnder faults env sourceFile functionName allProps
      (leaderState s key sourceFile content))
    (hsecond : second
      = buildKernelFromStringUnder faults env content functionName props first.2) :
    ((s.hashes key "occa-device" = HashStatus.complete
        ∨ (s.hashes key "occa-device" = HashStatus.claimed false
            ∧ env.ownerReleases key "occa-device" = true)) →
      callsSince s first.2
          = [ Event.haveHash key "occa-device",
              Event.waitForHash key "occa-device",
              Event.buildKernelFromBinary binaryFile functionName ]
      ∧ first.1
          = (if faults.throws
                (s.trace ++
                  [Event.haveHash key "occa-device", Event.waitForHash key "occa-device"])
                (Event.buildKernelFromBinary binaryFile functionName)
            then Except.error
              (Failure.thrown (Event.buildKernelFromBinary binaryFile functionName))
            else Except.ok
              { kHandle :=
                { env.buildKernelFromBinary binaryFile functionName with
                  dHandle := DeviceRef.facade } })
      ∧ first.2.hashes key "occa-device" = HashStatus.complete)
    ∧ ((s.hashes key "occa-device" = HashStatus.claimed true
        ∨ (s.hashes key "occa-device" = HashStatus.claimed false
            ∧ env.ownerReleases key "occa-device" = false)) →
      first.1 = Except.error Failure.neverReturns
      ∧ callsSince s first.2
          = [Event.haveHash key "occa-device", Event.waitForHash key "occa-device"])
    ∧ (s.hashes key "occa-device" = HashStatus.unclaimed →
      faults.throws (s.trace ++ [Event.haveHash key "occa-device"])
        (Event.write sourceFile content) = true →
      first.1 = Except.error (Failure.thrown (Event.write sourceFile content))
      ∧ callsSince s first.2
          = [Event.haveHash key "occa-device", Event.write sourceFile content]
      ∧ first.2.hashes key "occa-device" = HashStatus.claimed true)
    ∧ (s.hashes key "occa-device" = HashStatus.unclaimed →
      faults.throws (s.trace ++ [Event.haveHash key "occa-device"])
        (Event.write sourceFile content) = false →
      first.1 = build.1
      ∧ (∀ e ∈ callsSince (leaderState s key sourceFile content) build.2,
          e.isBuildStep = true)
      ∧ (build.1.isOk = true →
          callsSince s first.2
            = [Event.haveHash key "occa-device", Event.write sourceFile content]
              ++ callsSince (leaderState s key sourceFile content) build.2
              ++ [Event.releaseHash key "occa-device"]
          ∧ (callsSince s first.2).count (Event.releaseHash key "occa-device") = 1
          ∧ first.2.hashes key "occa-device" = HashStatus.complete)
      ∧ (build.1.isOk = false →
          callsSince s first.2
            = [Event.haveHash key "occa-device", Event.write sourceFile content]
              ++ callsSince (leaderState s key sourceFile content) build.2
          ∧ (callsSince s first.2).count (Event.releaseHash key "occa-device") = 0
          ∧ first.2.hashes key "occa-device" = HashStatus.claimed true))
    ∧ (first.1.isOk = true →
      callsSince first.2 second.2
          = [ Event.haveHash key "occa-device",
              Event.waitForHash key "occa-device",
              Event.buildKernelFromBinary binaryFile functionName ]
      ∧ (∀ e ∈ callsSince first.2 second.2, e.isTranslationOrCompilation = false)) := by
  subst hbinary
  subst hbuild
  subst hsecond
  subst hfirst
  have hA : ∀ t : State, t.dHandle = some d →
      (t.hashes key "occa-device" = HashStatus.complete
        ∨ (t.hashes key "occa-device" = HashStatus.claimed false
            ∧ env.ownerReleases key "occa-device" = true)) →
      callsSince t (buildKernelFromStringUnder faults env content functionName props t).2
          = [ Event.haveHash key "occa-device",
              Event.waitForHash key "occa-device",
              Event.buildKernelFromBinary (env.hashDir key ++ env.binaryFile) functionName ]
      ∧ (buildKernelFromStringUnder faults env content functionName props t).1
          = (if faults.throws
                (t.trace ++
                  [Event.haveHash key "occa-device", Event.waitForHash key "occa-device"])
                (Event.buildKernelFromBinary (env.hashDir key ++ env.binaryFile) functionName)
            then Except.error
              (Failure.thrown
                (Event.buildKernelFromBinary (env.hashDir key ++ env.binaryFile) functionName))
            else Except.ok
              { kHandle :=
                { env.buildKernelFromBinary (env.hashDir key ++ env.binaryFile)
                    functionName with
                  dHandle := DeviceRef.facade } })
      ∧ (buildKernelFromStringUnder faults env content functionName props t).2.hashes key
          "occa-device" = HashStatus.complete := by
    intro t ht hheld
    obtain ⟨h1, h2, h3⟩ := buildKernelFromStringUnder_follower faults env t d content
      functionName props allProps key ht hprops hkey hheld
    exact ⟨callsSince_append _ _ _ h2, h1, h3⟩
  have hB : (s.hashes key "occa-device" = HashStatus.claimed true
        ∨ (s.hashes key "occa-device" = HashStatus.claimed false
            ∧ env.ownerReleases key "occa-device" = false)) →
      (buildKernelFromStringUnder faults env content functionName props s).1
          = Except.error Failure.neverReturns
      ∧ callsSince s (buildKernelFromStringUnder faults env content functionName props s).2
          = [Event.haveHash key "occa-device", Event.waitForHash key "occa-device"] := by
    intro hheld
    rw [buildKernelFromStringUnder_blocked faults env s d content functionName props allProps
      key hinit hprops hkey hheld]
    exact ⟨rfl, callsSince_append _ _ _ rfl⟩
  have hC : s.hashes key "occa-device" = HashStatus.unclaimed →
      faults.throws (s.trace ++ [Event.haveHash key "occa-device"])
        (Event.write sourceFile content) = true →
      (buildKernelFromStringUnder faults env content functionName props s).1
          = Except.error (Failure.thrown (Event.write sourceFile content))
      ∧ callsSince s (buildKernelFromStringUnder faults env content functionName props s).2
          = [Event.haveHash key "occa-device", Event.write sourceFile content]
      ∧ (buildKernelFromStringUnder faults env content functionName props s).2.hashes key
          "occa-device" = HashStatus.claimed true := by
    intro hfree hw
    rw [buildKernelFromStringUnder_leader faults env s d content functionName sourceFile props
      allProps key hinit hprops hkey hsource hfree, if_pos hw]
    refine ⟨rfl, callsSince_append _ _ _ rfl, ?_⟩
    simp [leaderState]
  have hD := buildKernelFromStringUnder_leader_spec faults env s d content functionName
    sourceFile props allProps key hinit hprops hkey hsource
  have hdev : (buildKernelFromStringUnder faults env content functionName props s).2.dHandle
      = some d :=
    (inv_buildKernelFromStringUnder (fun h => h = some d) faults env content functionName
      props).keep s hinit
  refine ⟨hA s hinit, hB, hC, ?_, ?_⟩
  · intro hfree hw
    obtain ⟨h1, h2, h3, h4⟩ := hD hfree hw
    refine ⟨h1, h2, fun hok => ?_, fun hfail => ?_⟩
    · obtain ⟨ht, hh⟩ := h3 hok
      have hcalls := callsSince_append _ _ _ ht
      refine ⟨hcalls, ?_, hh⟩
      rw [hcalls]
      simp [List.count_append, releaseHash_count_of_buildSteps _ key "occa-device" h2,
        List.count_cons]
    · obtain ⟨ht, hh⟩ := h4 hfail
      have hcalls := callsSince_append _ _ _ ht
      refine ⟨hcalls, ?_, hh⟩
      rw [hcalls]
      simp [List.count_append, releaseHash_count_of_buildSteps _ key "occa-device" h2,
        List.count_cons]
  · intro hok
    have hcomplete : (buildKernelFromStringUnder faults env content functionName props s).2.hashes
        key "occa-device" = HashStatus.complete := by
      cases hstat : s.hashes key "occa-device" with
      | complete => exact (hA s hinit (Or.inl hstat)).2.2
      | unclaimed =>
        cases hw : faults.throws (s.trace ++ [Event.haveHash key "occa-device"])
            (Event.write sourceFile content) with
        | true =>
          rw [(hC hstat hw).1] at hok
          simp [Except.isOk, Except.toBool] at hok
        | false =>
          obtain ⟨h1, _, h3, _⟩ := hD hstat hw
          rw [h1] at hok
          exact (h3 hok).2
      | claimed b =>
        cases b with
        | true =>
          rw [(hB (Or.inl hstat)).1] at hok
          simp [Except.isOk, Except.toBool] at hok
        | false =>
          cases hrel : env.ownerReleases key "occa-device" with
          | true => exact (hA s hinit (Or.inr ⟨hstat, hrel⟩)).2.2
          | false =>
            rw [(hB (Or.inr ⟨hstat, hrel⟩)).1] at hok
            simp [Except.isOk, Except.toBool] at hok
    obtain ⟨hcalls, _, _⟩ := hA _ hdev (Or.inl hcomplete)
    refine ⟨hcalls, ?_⟩
    intro e he
    rw [hcalls] at he
    simp only [List.mem_cons, List.mem_singleton, List.not_mem_nil, or_false] at he
    rcases he with he | he | he <;> subst he <;> rfl

/-! ## The two layers agree when nothing throws -/

theorem callUnder_none {α : Type} (e : Event) (ret : List Event → α) :
    callUnder Faults.none e ret = call e ret := by
  funext s
  simp [callUnder, Faults.none]

theorem dcallUnder_none {α : Type} (e : Event) (ret : List Event → α) :
    dcallUnder Faults.none e ret = dcall e ret := by
  funext s
  simp [dcallUnder, dcall, callUnder_none]

theorem finishLoopUnder_none (env : Env) :
    ∀ l : List MemRef, finishLoopUnder Faults.none env l = finishLoop env l := by
  intro l
  induction l with
  | nil => rfl
  | cons mem rest ih => simp only [finishLoopUnder, finishLoop, callUnder_none, ih]

theorem freeLoopUnder_none :
    ∀ l : List stream_t, freeLoopUnder Faults.none l = freeLoop l := by
  intro l
  induction l with
  | nil => rfl
  | cons h rest ih => simp only [freeLoopUnder, freeLoop, dcallUnder_none, ih]

theorem buildNestedKernelsUnder_none (env : Env) (parsedFile : String) (allProps : Props)
    (metadata : kernelMetadata) :
    ∀ (l : List Nat) (acc : List kernel_v),
      buildNestedKernelsUnder Faults.none env parsedFile allProps metadata l acc
        = buildNestedKernels env parsedFile allProps metadata l acc := by
  intro l
  induction l with
  | nil => intro acc; rfl
  | cons ki rest ih =>
    intro acc
    simp only [buildNestedKernelsUnder, buildNestedKernels, dcallUnder_none, ih]

theorem buildKernelUnder_none (env : Env) (filename functionName : String) (props : Props) :
    buildKernelUnder Faults.none env filename functionName props
      = buildKernel env filename functionName props := by
  simp only [buildKernelUnder, buildKernel, newModeDeviceUnder, newModeDevice, callUnder_none,
    dcallUnder_none, buildNestedKernelsUnder_none]

theorem buildKernelFromBinaryUnder_none (env : Env) (filename functionName : String) :
    buildKernelFromBinaryUnder Faults.none env filename functionName
      = buildKernelFromBinary env filename functionName := by
  simp only [buildKernelFromBinaryUnder, buildKernelFromBinary, dcallUnder_none]

theorem mallocUnder_none (env : Env) (bytes : Int) (src : Ptr) (props : Props) :
    mallocUnder Faults.none env bytes src props = malloc env bytes src props := by
  simp only [mallocUnder, malloc, dcallUnder_none]

/-- With no collaborator call throwing, every request behaves as in the
definitions of the first part. -/
theorem stepUnder_none (env : Env) (op : Op) : stepUnder Faults.none env op = step env op := by
  cases op <;>
    simp only [stepUnder, step, getHandleUnder, getHandle, memorySizeUnder, memorySize,
      flushUnder, flush, finishUnder, finish, createStreamUnder, createStream, freeStreamUnder,
      freeStream, wrapStreamUnder, wrapStream, tagStreamUnder, tagStream, waitForUnder, waitFor,
      timeBetweenUnder, timeBetween, setupUnder, setup, newModeDeviceUnder, newModeDevice,
      managedAllocUnder, managedAlloc, wrapMemoryUnder, wrapMemory, freeUnder, free,
      buildKernelFromStringUnder, buildKernelFromString, mallocUnder_none,
      buildKernelUnder_none, buildKernelFromBinaryUnder_none, finishLoopUnder_none,
      freeLoopUnder_none, callUnder_none, dcallUnder_none]

theorem runOpsUnder_none (env : Env) (ops : List Op) (s : State) :
    runOpsUnder Faults.none env ops s = runOps env ops s := by
  simp only [runOpsUnder, runOps, stepUnder_none]

/-- A first build of the string `src` in the language `OFL` as leader with
every call returning, then the same build again; and the same first build
with the Serial pre-pass build throwing. -/
theorem buildKernelFromString_protocol_witness :
    callsSince initialized
        (buildKernelFromStringUnder Faults.none demoEnv "src" "scale" [("language", "OFL")]
          initialized).2
      = [Event.haveHash 1 "occa-device", Event.write "cache/stringSource.ofl" "src"]
        ++ callsSince (leaderState initialized 1 "cache/stringSource.ofl" "src")
            (buildKernelUnder Faults.none demoEnv "cache/stringSource.ofl" "scale"
              [("language", "OFL"), ("mode", "Serial")]
              (leaderState initialized 1 "cache/stringSource.ofl" "src")).2
        ++ [Event.releaseHash 1 "occa-device"]
    ∧ (callsSince initialized
        (buildKernelFromStringUnder Faults.none demoEnv "src" "scale" [("language", "OFL")]
          initialized).2).count (Event.releaseHash 1 "occa-device") = 1
    ∧ callsSince
        (buildKernelFromStringUnder Faults.none demoEnv "src" "scale" [("language", "OFL")]
          initialized).2
        (buildKernelFromStringUnder Faults.none demoEnv "src" "scale" [("language", "OFL")]
          (buildKernelFromStringUnder Faults.none demoEnv "src" "scale" [("language", "OFL")]
            initialized).2).2
      = [ Event.haveHash 1 "occa-device",
          Event.waitForHash 1 "occa-device",
          Event.buildKernelFromBinary "cache/binary" "scale" ]
    ∧ (callsSince initialized
        (buildKernelFromStringUnder prepassThrows demoEnv "src" "scale" [("language", "OFL")]
          initialized).2).count (Event.releaseHash 1 "occa-device") = 0
    ∧ (buildKernelFromStringUnder prepassThrows demoEnv "src" "scale" [("language", "OFL")]
        initialized).2.hashes 1 "occa-device" = HashStatus.claimed true :=
  have h := buildKernelFromString_protocol Faults.none demoEnv initialized serialDevice "src"
    "scale" "cache/stringSource.ofl" "cache/binary" [("language", "OFL")]
    [("language", "OFL"), ("mode", "Serial")] 1
    (buildKernelFromStringUnder Faults.none demoEnv "src" "scale" [("language", "OFL")]
      initialized)
    (buildKernelUnder Faults.none demoEnv "cache/stringSource.ofl" "scale"
      [("language", "OFL"), ("mode", "Serial")]
      (leaderState initialized 1 "cache/stringSource.ofl" "src"))
    (buildKernelFromStringUnder Faults.none demoEnv "src" "scale" [("language", "OFL")]
      (buildKernelFromStringUnder Faults.none demoEnv "src" "scale" [("language", "OFL")]
        initialized).2)
    rfl (by decide) (by decide) (by decide) (by decide) rfl rfl rfl
  have g := buildKernelFromString_protocol prepassThrows demoEnv initialized serialDevice "src"
    "scale" "cache/stringSource.ofl" "cache/binary" [("language", "OFL")]
    [("language", "OFL"), ("mode", "Serial")] 1
    (buildKernelFromStringUnder prepassThrows demoEnv "src" "scale" [("language", "OFL")]
      initialized)
    (buildKernelUnder prepassThrows demoEnv "cache/stringSource.ofl" "scale"
      [("language", "OFL"), ("mode", "Serial")]
      (leaderState initialized 1 "cache/stringSource.ofl" "src"))
    (buildKernelFromStringUnder prepassThrows demoEnv "src" "scale" [("language", "OFL")]
      (buildKernelFromStringUnder prepassThrows demoEnv "src" "scale" [("language", "OFL")]
        initialized).2)
    rfl (by decide) (by decide) (by decide) (by decide) rfl rfl rfl
  ⟨((h.2.2.2.1 (by decide) (by decide)).2.2.1 (by decide)).1,
   ((h.2.2.2.1 (by decide) (by decide)).2.2.1 (by decide)).2.1,
   (h.2.2.2.2 (by decide)).1,
   ((g.2.2.2.1 (by decide) (by decide)).2.2.2 (by decide)).2.1,
   ((g.2.2.2.1 (by decide) (by decide)).2.2.2 (by decide)).2.2⟩

end occa
